import Mathlib

/-!
Verification of the DTS-UHD (DTS:X Profile 2) frame parser
(`libavcodec/dtsuhd_common.h`, `libavcodec/dtsuhd_parser.c` and the
demuxer) against its natural-language specification.

The C sources are shallowly embedded: byte buffers become `List Nat`
(each entry one byte), the big-endian MSB-first bit reader becomes a
cursor position into such a list (reading past the end yields zero
bits, matching the specified bit-reader semantics), and the mutable
`DTSUHD` parse handle becomes a record threaded through the parsing
functions.  C functions that can fail only through allocation are
modelled as total (allocation always succeeds); functions with real
bitstream failure paths return a success flag together with the
(possibly partially mutated) state, exactly as the C mutates the
handle in place before returning an error code.
-/

namespace DTSUHD

/-- Syncword of a non-sync frame (DTSUHD_NONSYNCWORD). -/
def NONSYNCWORD : Nat := 0x71C442E8

/-- Syncword of a sync frame (DTSUHD_SYNCWORD). -/
def SYNCWORD : Nat := 0x40411BF2

/-- DTSUHD_MAX_FRAME_SIZE. -/
def MAX_FRAME_SIZE : Nat := 0x1000

/-- DTSUHD_CHUNK_HEADER: container chunk header length in bytes. -/
def CHUNK_HEADER : Nat := 16

/-- Return codes of dtsuhd_frame (enum DTSUHDStatus). -/
inductive Status where
  | ok
  | incomplete
  | invalid_frame
  | nosync
  | null_arg
deriving DecidableEq, Repr

/-! ## Bit reader

`GetBitContext` over an immutable byte buffer: a byte list plus a bit
position.  Bits are big-endian MSB-first; a read past the end of the
buffer returns zero bits. -/

/-- Bit `i` (MSB-first across the whole buffer) of a byte list; 0 past the end. -/
def bitAt (data : List Nat) (i : Nat) : Nat :=
  ((data.getD (i / 8) 0) >>> (7 - i % 8)) % 2

/-- Read `n` bits starting at bit position `pos` as a big-endian unsigned
integer (the value `show_bits`/`get_bits` returns). -/
def showBitsAt (data : List Nat) (pos n : Nat) : Nat :=
  (List.range n).foldl (fun acc j => acc * 2 + bitAt data (pos + j)) 0

/-- A GetBitContext: the buffer and the current bit position. -/
structure GB where
  data : List Nat
  pos : Nat
deriving Repr

/-- show_bits: peek `n` bits without advancing. -/
def GB.show_bits (gb : GB) (n : Nat) : Nat :=
  showBitsAt gb.data gb.pos n

/-- skip_bits: advance the cursor by `n` bits. -/
def GB.skip_bits (gb : GB) (n : Nat) : GB :=
  { gb with pos := gb.pos + n }

/-- get_bits / get_bits_long: read `n` bits and advance. -/
def GB.get_bits (gb : GB) (n : Nat) : Nat × GB :=
  (gb.show_bits n, gb.skip_bits n)

/-- get_bits1: read a single bit as a Bool. -/
def GB.get_bits1 (gb : GB) : Bool × GB :=
  let (v, gb') := gb.get_bits 1
  (v = 1, gb')

/-- get_bits_count: bits consumed so far. -/
def GB.get_bits_count (gb : GB) : Nat := gb.pos

/-! ## VarField decoder (get_bits_var, Table 5-2) -/

/-- bits_used[8] of get_bits_var. -/
def bits_used : List Nat := [1, 1, 1, 1, 2, 2, 3, 3]

/-- index_table[8] of get_bits_var. -/
def index_table : List Nat := [0, 0, 0, 0, 1, 1, 2, 3]

/-- get_bits_var: decode the custom prefix-coded variable-width integer.
`table` is the 4-entry width table; `add` adds `sum(1 << table[j])` for
`j < index` to the decoded value. -/
def get_bits_var (gb : GB) (table : List Nat) (add : Bool) : Nat × GB :=
  let code := gb.show_bits 3
  let index := index_table.getD code 0
  let gb1 := gb.skip_bits (bits_used.getD code 0)
  if 0 < table.getD index 0 then
    let base :=
      if add then
        (List.range index).foldl (fun acc j => acc + 2 ^ (table.getD j 0)) 0
      else 0
    let (v, gb2) := gb1.get_bits (table.getD index 0)
    (base + v, gb2)
  else
    (0, gb1)

/-! ## CRC-16 (check_crc, Table 6-9) -/

/-- The 16-entry CCITT CRC lookup table of check_crc. -/
def crc_lookup : List Nat :=
  [0x0000, 0x1021, 0x2042, 0x3063, 0x4084, 0x50A5, 0x60C6, 0x70E7,
   0x8108, 0x9129, 0xA14A, 0xB16B, 0xC18C, 0xD1AD, 0xE1CE, 0xF1EF]

/-- One CRC step on a 4-bit group: `crc = (crc << 4) ^ T[(crc >> 12) ^ nibble]`,
kept to 16 bits. -/
def crcStep (crc nibble : Nat) : Nat :=
  (((crc % 4096) * 16) ^^^ crc_lookup.getD ((crc >>> 12) ^^^ nibble) 0) % 65536

/-- check_crc: process `2*bytes` nibbles starting at bit `bit` of `data`
(the loop `for (i = -bytes; i < bytes; i++)`), starting from 0xFFFF.
Returns `true` when the residual is nonzero, i.e. the check FAILED. -/
def check_crc (data : List Nat) (bit bytes : Nat) : Bool :=
  ((List.range (2 * bytes)).foldl
    (fun crc k => crcStep crc (showBitsAt data (bit + 4 * k) 4)) 0xFFFF) ≠ 0

/-! ## Parser data model (struct DTSUHD and its sub-structures)

Dynamic C arrays (`chunk`, `navi`, `md01`) are modelled as lists holding
exactly the valid entries (`*_count` is the list length); the C keeps a
larger allocation whose entries beyond the count are never read, and
high-water allocation (`*_alloc`) has no observable effect.  Allocation
failure (the only failure path of `av_reallocp*`) is not modelled:
allocation always succeeds. -/

/-- enum RepType. -/
def REP_TYPE_CH_MASK_BASED : Nat := 0

/-- REP_TYPE_BINAURAL in enum RepType. -/
def REP_TYPE_BINAURAL : Nat := 3

/-- struct MDObject. -/
structure MDObject where
  started : Bool
  pres_index : Nat
  rep_type : Nat
  ch_activity_mask : Nat
deriving Repr, DecidableEq

/-- A zeroed MDObject (memset semantics). -/
def mdObjectZero : MDObject := ⟨false, 0, 0, 0⟩

/-- struct MD01.  `buf` is `none` while the C pointer is NULL; `gbPos` is
the bit position of the `md01->gb` cursor into `buf`.  `object_list`
holds the `object_list_count` valid entries. -/
structure MD01 where
  gbPos : Nat
  object : List MDObject
  chunk_id : Nat
  object_list : List Nat
  packets_acquired : Nat
  static_md_extracted : Bool
  static_md_packets : Nat
  static_md_packet_size : Nat
  static_md_update_flag : Bool
  buf : Option (List Nat)
deriving Repr, DecidableEq

/-- A zeroed MD01 with the given chunk id (chunk_append_md01 memsets). -/
def md01Zero (id : Nat) : MD01 :=
  ⟨0, List.replicate 257 mdObjectZero, id, [], 0, false, 0, 0, false, none⟩

/-- struct NAVI. -/
structure NAVI where
  bytes : Nat
  id : Nat
  index : Nat
  present : Bool
deriving Repr, DecidableEq

/-- A zeroed NAVI entry. -/
def naviZero : NAVI := ⟨0, 0, 0, false⟩

/-- struct UHDAudio. -/
structure UHDAudio where
  mask : Nat
  selectable : Bool
deriving Repr, DecidableEq

/-- A zeroed UHDAudio entry. -/
def uhdAudioZero : UHDAudio := ⟨0, false⟩

/-- struct UHDChunk. -/
structure UHDChunk where
  crc_flag : Bool
  bytes : Nat
deriving Repr, DecidableEq

/-- struct DTSUHD: the cross-frame parser state.  The `data`/`data_bytes`
members of the C struct are the current frame buffer and are passed as
arguments instead of being stored. -/
structure State where
  md01 : List MD01
  navi : List NAVI
  audio : List UHDAudio
  chunk : List UHDChunk
  chunk_bytes : Nat
  clock_rate : Nat
  frame_bytes : Nat
  frame_duration : Nat
  frame_duration_code : Nat
  ftoc_bytes : Nat
  major_version : Nat
  num_audio_pres : Nat
  sample_rate : Nat
  sample_rate_mod : Nat
  full_channel_mix_flag : Bool
  interactive_obj_limits_present : Bool
  is_sync_frame : Bool
  saw_sync : Bool
deriving Repr, DecidableEq

/-- dtsuhd_create: a zero-filled parse handle (av_calloc). -/
def dtsuhd_create : State :=
  ⟨[], [], List.replicate 256 uhdAudioZero, [], 0, 0, 0, 0, 0, 0, 0, 0, 0, 0,
   false, false, false, false⟩

/-- get_bits_md01: read from the MD01 buffer cursor when `buf` is
allocated, falling back to the main frame cursor. -/
def get_bits_md01 (st : State) (mi : Nat) (gb : GB) (bits : Nat) :
    Nat × State × GB :=
  let md := st.md01.getD mi (md01Zero 0)
  match md.buf with
  | some b =>
      let r := (GB.mk b md.gbPos).get_bits bits
      (r.1, {st with md01 := st.md01.set mi {md with gbPos := r.2.pos}}, gb)
  | none =>
      let r := gb.get_bits bits
      (r.1, st, r.2)

/-- chunk_append_md01: append a zeroed MD01 with the given chunk id,
returning the state and the new element's index. -/
def chunk_append_md01 (st : State) (id : Nat) : State × Nat :=
  ({st with md01 := st.md01 ++ [md01Zero id]}, st.md01.length)

/-- chunk_find_md01: index of the MD01 with the given chunk id. -/
def chunk_find_md01 (st : State) (id : Nat) : Option Nat :=
  st.md01.findIdx? (fun m => m.chunk_id = id)

/-- Inner scan of find_default_audio over one MD01's 257 objects:
the object slot with the smallest pres_index among started objects
whose presentation is selectable (first slot on ties). -/
def find_default_audio_scan (st : State) (md : MD01) : Option Nat :=
  (List.range 257).foldl
    (fun best j =>
      let obj := md.object.getD j mdObjectZero
      if obj.started && (st.audio.getD obj.pres_index uhdAudioZero).selectable &&
         (match best with
          | none => true
          | some b => decide (obj.pres_index < (md.object.getD b mdObjectZero).pres_index))
      then some j else best)
    none

/-- find_default_audio over a list of MD01 chunks: first chunk containing
a suitable object wins. -/
def find_default_audio_list (st : State) : List MD01 → Option MDObject
  | [] => none
  | md :: rest =>
      match find_default_audio_scan st md with
      | some j => some (md.object.getD j mdObjectZero)
      | none => find_default_audio_list st rest

/-- find_default_audio. -/
def find_default_audio (st : State) : Option MDObject :=
  find_default_audio_list st st.md01

/-! ## Descriptor builder -/

/-- Structural helper for popcount: `fuel` bounds the recursion depth;
since the argument at least halves each step, `fuel = n` is always
enough and the result is exact. -/
def popcountAux : Nat → Nat → Nat
  | 0, _ => 0
  | fuel + 1, n => if n = 0 then 0 else n % 2 + popcountAux fuel (n / 2)

/-- Population count of a natural number (av_popcount). -/
def popcount (n : Nat) : Nat := popcountAux n n

/-- FFmpeg channel-mask constants (libavutil/channel_layout.h):
AV_CH_x = 1 << AV_CHAN_x. -/
def AV_CH_FRONT_LEFT : Nat := 0x1
def AV_CH_FRONT_RIGHT : Nat := 0x2
def AV_CH_FRONT_CENTER : Nat := 0x4
def AV_CH_LOW_FREQUENCY : Nat := 0x8
def AV_CH_BACK_LEFT : Nat := 0x10
def AV_CH_BACK_RIGHT : Nat := 0x20
def AV_CH_FRONT_LEFT_OF_CENTER : Nat := 0x40
def AV_CH_FRONT_RIGHT_OF_CENTER : Nat := 0x80
def AV_CH_BACK_CENTER : Nat := 0x100
def AV_CH_SIDE_LEFT : Nat := 0x200
def AV_CH_SIDE_RIGHT : Nat := 0x400
def AV_CH_TOP_CENTER : Nat := 0x800
def AV_CH_TOP_FRONT_LEFT : Nat := 0x1000
def AV_CH_TOP_FRONT_CENTER : Nat := 0x2000
def AV_CH_TOP_FRONT_RIGHT : Nat := 0x4000
def AV_CH_TOP_BACK_LEFT : Nat := 0x8000
def AV_CH_TOP_BACK_CENTER : Nat := 0x10000
def AV_CH_TOP_BACK_RIGHT : Nat := 0x20000
def AV_CH_SURROUND_DIRECT_LEFT : Nat := 0x200000000
def AV_CH_SURROUND_DIRECT_RIGHT : Nat := 0x400000000
def AV_CH_LOW_FREQUENCY_2 : Nat := 0x800000000
def AV_CH_TOP_SIDE_LEFT : Nat := 0x1000000000
def AV_CH_TOP_SIDE_RIGHT : Nat := 0x2000000000
def AV_CH_BOTTOM_FRONT_CENTER : Nat := 0x4000000000
def AV_CH_BOTTOM_FRONT_LEFT : Nat := 0x8000000000
def AV_CH_BOTTOM_FRONT_RIGHT : Nat := 0x10000000000

/-- AVChannel enum values used (the source ORs these two enum values,
not channel masks, in one activity-map row; embedded faithfully). -/
def AV_CHAN_WIDE_LEFT : Nat := 31
def AV_CHAN_WIDE_RIGHT : Nat := 32

/-- One row of the activity-map table of extract_object_info. -/
structure ActRow where
  activity_mask : Nat
  channel_mask : Nat
  ffmpeg_channel_mask : Nat
deriving Repr, DecidableEq

/-- The 20-row activity-map table (terminator row omitted: its zero
activity mask never matches, and the C loop stops there). -/
def activity_map : List ActRow :=
  [⟨0x000001, 0x00000001, AV_CH_FRONT_CENTER⟩,
   ⟨0x000002, 0x00000006, AV_CH_FRONT_LEFT ||| AV_CH_FRONT_RIGHT⟩,
   ⟨0x000004, 0x00000018, AV_CH_SIDE_LEFT ||| AV_CH_SIDE_RIGHT⟩,
   ⟨0x000008, 0x00000020, AV_CH_LOW_FREQUENCY⟩,
   ⟨0x000010, 0x00000040, AV_CH_BACK_CENTER⟩,
   ⟨0x000020, 0x0000A000, AV_CH_TOP_FRONT_LEFT ||| AV_CH_TOP_FRONT_RIGHT⟩,
   ⟨0x000040, 0x00000180, AV_CH_BACK_LEFT ||| AV_CH_BACK_RIGHT⟩,
   ⟨0x000080, 0x00004000, AV_CH_TOP_FRONT_CENTER⟩,
   ⟨0x000100, 0x00080000, AV_CH_TOP_CENTER⟩,
   ⟨0x000200, 0x00001800, AV_CH_FRONT_LEFT_OF_CENTER ||| AV_CH_FRONT_RIGHT_OF_CENTER⟩,
   ⟨0x000400, 0x00060000, AV_CHAN_WIDE_LEFT ||| AV_CHAN_WIDE_RIGHT⟩,
   ⟨0x000800, 0x00000600, AV_CH_SURROUND_DIRECT_LEFT ||| AV_CH_SURROUND_DIRECT_RIGHT⟩,
   ⟨0x001000, 0x00010000, AV_CH_LOW_FREQUENCY_2⟩,
   ⟨0x002000, 0x00300000, AV_CH_TOP_SIDE_LEFT ||| AV_CH_TOP_SIDE_RIGHT⟩,
   ⟨0x004000, 0x00400000, AV_CH_TOP_BACK_CENTER⟩,
   ⟨0x008000, 0x01800000, AV_CH_TOP_BACK_LEFT ||| AV_CH_TOP_BACK_RIGHT⟩,
   ⟨0x010000, 0x02000000, AV_CH_BOTTOM_FRONT_CENTER⟩,
   ⟨0x020000, 0x0C000000, AV_CH_BOTTOM_FRONT_LEFT ||| AV_CH_BOTTOM_FRONT_RIGHT⟩,
   ⟨0x140000, 0x30000000, AV_CH_TOP_FRONT_LEFT ||| AV_CH_TOP_FRONT_RIGHT⟩,
   ⟨0x080000, 0xC0000000, AV_CH_TOP_BACK_LEFT ||| AV_CH_TOP_BACK_RIGHT⟩]

/-- struct DTSUHDDescriptorInfo.  `coding_name` is the 4-character
SampleEntry box name. -/
structure DescriptorInfo where
  valid : Bool
  coding_name : String
  base_sample_freq_code : Nat
  channel_count : Nat
  decoder_profile_code : Nat
  frame_duration_code : Nat
  max_payload_code : Nat
  num_pres_code : Nat
  rep_type : Nat
  sample_rate : Nat
  sample_rate_mod : Nat
  sample_size : Nat
  channel_mask : Nat
  ffmpeg_channel_mask : Nat
deriving Repr, DecidableEq

/-- A zero-filled DescriptorInfo (memset in update_descriptor). -/
def descriptorZero : DescriptorInfo :=
  ⟨false, "", 0, 0, 0, 0, 0, 0, 0, 0, 0, 0, 0, 0⟩

/-- extract_object_info: translate an object's channel-activity mask
through the activity map, accumulating both channel masks, then derive
the channel count and representation type. -/
def extract_object_info (obj : Option MDObject) (info : DescriptorInfo) :
    DescriptorInfo :=
  match obj with
  | none => info
  | some o =>
      let info1 := activity_map.foldl
        (fun inf row =>
          if row.activity_mask &&& o.ch_activity_mask ≠ 0 then
            {inf with channel_mask := inf.channel_mask ||| row.channel_mask,
                      ffmpeg_channel_mask :=
                        inf.ffmpeg_channel_mask ||| row.ffmpeg_channel_mask}
          else inf)
        info
      {info1 with channel_count := popcount info1.channel_mask,
                  rep_type := o.rep_type}

/-- update_descriptor: assemble the MP4 Sample Entry information. -/
def update_descriptor (st : State) : DescriptorInfo :=
  let info0 := {descriptorZero with
    coding_name := if 2 < st.major_version then "dtsy" else "dtsx"}
  let info1 := extract_object_info (find_default_audio st) info0
  {info1 with
    base_sample_freq_code := if st.sample_rate = 48000 then 1 else 0,
    decoder_profile_code := st.major_version - 2,
    frame_duration_code := st.frame_duration_code,
    max_payload_code := if 2 < st.major_version then 1 else 0,
    num_pres_code := st.num_audio_pres - 1,
    sample_rate := st.sample_rate,
    sample_rate_mod := st.sample_rate_mod,
    sample_size := 16,
    valid := true}

/-! ## Stream parameters (Table 6-12) -/

/-- table_base_duration of parse_stream_params. -/
def table_base_duration : List Nat := [512, 480, 384, 0]

/-- table_clock_rate of parse_stream_params. -/
def table_clock_rate : List Nat := [32000, 44100, 48000, 0]

/-- decode_version: a 1-bit selector chooses a 3- or 6-bit version field,
read once and skipped once more. -/
def decode_version (st : State) (gb : GB) : State × GB :=
  let s := gb.get_bits1
  let bits := if s.1 then 3 else 6
  let v := s.2.get_bits bits
  ({st with major_version := v.1 + 2}, v.2.skip_bits bits)

/-- parse_stream_params.  Returns (failed, state, cursor); the state
keeps whatever was mutated before a failure, as the C mutates the
handle in place. -/
def parse_stream_params (st : State) (gb : GB) (data : List Nat) :
    Bool × State × GB :=
  let fp := if st.is_sync_frame then
      let b := gb.get_bits1
      ({st with full_channel_mix_flag := b.1}, b.2)
    else (st, gb)
  let st1 := fp.1
  let gb1 := fp.2
  let has_ftoc_crc := !st1.full_channel_mix_flag || st1.is_sync_frame
  if has_ftoc_crc && check_crc data 0 st1.ftoc_bytes then (true, st1, gb1)
  else if st1.is_sync_frame then
    let vp := if st1.full_channel_mix_flag then ({st1 with major_version := 2}, gb1)
              else decode_version st1 gb1
    let d2 := vp.2.get_bits 2
    let st3 := {vp.1 with frame_duration := table_base_duration.getD d2.1 0}
    let fdc := d2.2.get_bits 3
    let st4 := {st3 with frame_duration_code := fdc.1,
                         frame_duration := st3.frame_duration * (fdc.1 + 1)}
    let c2 := fdc.2.get_bits 2
    let st5 := {st4 with clock_rate := table_clock_rate.getD c2.1 0}
    if st5.frame_duration = 0 || st5.clock_rate = 0 then (true, st5, c2.2)
    else
      let ts := c2.2.get_bits1
      let gb7 := ts.2.skip_bits (36 * (if ts.1 then 1 else 0))
      let srm := gb7.get_bits 2
      let st6 := {st5 with sample_rate_mod := srm.1,
                           sample_rate := st5.clock_rate * 2 ^ srm.1}
      if st6.full_channel_mix_flag then
        (false, {st6 with interactive_obj_limits_present := false}, srm.2)
      else
        let iol := (srm.2.skip_bits 1).get_bits1
        (false, {st6 with interactive_obj_limits_present := iol.1}, iol.2)
  else (false, st1, gb1)

/-! ## Audio presentation parameters (Tables 6-15..6-17) -/

/-- Width table of parse_explicit_object_lists. -/
def peolTable : List Nat := [4, 8, 16, 32]

/-- parse_explicit_object_lists: only reads bits (its sole state use is
the sync flag); never fails. -/
def parse_explicit_object_lists (isSync : Bool) (mask index : Nat) (gb : GB) : GB :=
  (List.range index).foldl
    (fun g i =>
      if (mask >>> i) % 2 = 1 then
        if isSync then (get_bits_var g peolTable true).2
        else
          let b := g.get_bits1
          if b.1 then (get_bits_var b.2 peolTable true).2 else b.2
      else g)
    gb

/-- Width table of parse_aud_pres_params. -/
def papTable : List Nat := [0, 2, 4, 5]

/-- The `for (i = 0; read_mask; i++, read_mask >>= 1)` loop of
parse_aud_pres_params: shift one stream bit into `mask` at position `i`
for every set bit of `read_mask`.  `fuel` makes the recursion
structural; since `read_mask` halves each step and the loop ends at 0,
`fuel = read_mask` reproduces the C loop exactly. -/
def readMaskLoopAux : Nat → GB → Nat → Nat → Nat → Nat × GB
  | 0, gb, _, _, mask => (mask, gb)
  | fuel + 1, gb, read_mask, i, mask =>
      if read_mask = 0 then (mask, gb)
      else
        if read_mask % 2 = 1 then
          let b := gb.get_bits 1
          readMaskLoopAux fuel b.2 (read_mask / 2) (i + 1) (mask ||| (b.1 <<< i))
        else readMaskLoopAux fuel gb (read_mask / 2) (i + 1) mask

/-- Entry point of the read-mask loop. -/
def readMaskLoop (gb : GB) (read_mask i mask : Nat) : Nat × GB :=
  readMaskLoopAux read_mask gb read_mask i mask

/-- memset of the first `n` presentation slots in parse_aud_pres_params. -/
def memsetAudio (l : List UHDAudio) (n : Nat) : List UHDAudio :=
  l.mapIdx (fun i a => if i < n then uhdAudioZero else a)

/-- Body of the presentation loop of parse_aud_pres_params at index `a`. -/
def papBody (st : State) (gb : GB) (a : Nat) : State × GB :=
  let sel := if st.is_sync_frame then
      let s := if st.full_channel_mix_flag then (true, gb) else gb.get_bits1
      let cur := st.audio.getD a uhdAudioZero
      ({st with audio := st.audio.set a {cur with selectable := s.1}}, s.2)
    else (st, gb)
  let st1 := sel.1
  let gb1 := sel.2
  if (st1.audio.getD a uhdAudioZero).selectable then
    let mk := if st1.is_sync_frame then
        let rm := if 0 < a then gb1.get_bits a else (0, gb1)
        let m := readMaskLoop rm.2 rm.1 0 0
        let cur := st1.audio.getD a uhdAudioZero
        ({st1 with audio := st1.audio.set a {cur with mask := m.1}}, m.2)
      else (st1, gb1)
    let gb3 := parse_explicit_object_lists mk.1.is_sync_frame
        ((mk.1.audio.getD a uhdAudioZero).mask) a mk.2
    (mk.1, gb3)
  else
    let cur := st1.audio.getD a uhdAudioZero
    ({st1 with audio := st1.audio.set a {cur with mask := 0}}, gb1)

/-- The presentation loop: `remaining` iterations starting at index `a`. -/
def papLoop (st : State) (gb : GB) (a remaining : Nat) : State × GB :=
  match remaining with
  | 0 => (st, gb)
  | r + 1 =>
      let s := papBody st gb a
      papLoop s.1 s.2 (a + 1) r

/-- parse_aud_pres_params (it never fails: parse_explicit_object_lists
always returns 0 in the C). -/
def parse_aud_pres_params (st : State) (gb : GB) : State × GB :=
  let np := if st.is_sync_frame then
      let n := if st.full_channel_mix_flag then (1, gb)
               else
                 let v := get_bits_var gb papTable true
                 (v.1 + 1, v.2)
      ({st with num_audio_pres := n.1, audio := memsetAudio st.audio n.1}, n.2)
    else (st, gb)
  papLoop np.1 np.2 0 np.1.num_audio_pres

/-! ## Navigation table (Tables 6-20..6-24) -/

/-- navi_purge: zero the byte counts of absent entries. -/
def navi_purge (st : State) : State :=
  {st with navi := st.navi.map (fun s => if s.present then s else {s with bytes := 0})}

/-- navi_clear: drop the whole table. -/
def navi_clear (st : State) : State := {st with navi := []}

/-- navi_clear_present: mark every entry absent. -/
def navi_clear_present (st : State) : State :=
  {st with navi := st.navi.map (fun s => {s with present := false})}

/-- navi_find_index: find the slot with the desired index (marking it
present), else reuse the first absent zero-byte slot, else append; new
slots get bytes 0, id 256, present true.  Returns the slot position. -/
def navi_find_index (st : State) (desired : Nat) : State × Nat :=
  match st.navi.findIdx? (fun s => s.index = desired) with
  | some i =>
      let cur := st.navi.getD i naviZero
      ({st with navi := st.navi.set i {cur with present := true}}, i)
  | none =>
      match st.navi.findIdx? (fun s => !s.present && s.bytes = 0) with
      | some j => ({st with navi := st.navi.set j ⟨0, 256, desired, true⟩}, j)
      | none => ({st with navi := st.navi ++ [⟨0, 256, desired, true⟩]}, st.navi.length)

/-- VarField width table {2,4,6,8}. -/
def table2468 : List Nat := [2, 4, 6, 8]

/-- Audio-chunk size width table of parse_chunk_navi. -/
def table_audio_chunk_sizes : List Nat := [9, 11, 13, 16]

/-- FTOC chunk size width table of parse_chunk_navi. -/
def table_chunk_sizes : List Nat := [6, 9, 12, 15]

/-- FTOC chunk descriptor loop of parse_chunk_navi: read each chunk's
size (and CRC flag unless full-channel-mix), accumulating chunk_bytes. -/
def chunkLoop : Nat → State × GB → State × GB
  | 0, acc => acc
  | r + 1, (st, gb) =>
      let b := get_bits_var gb table_chunk_sizes true
      let cf := if st.full_channel_mix_flag then (false, b.2) else b.2.get_bits1
      chunkLoop r
        ({st with chunk := st.chunk ++ [⟨cf.1, b.1⟩],
                  chunk_bytes := st.chunk_bytes + b.1}, cf.2)

/-- One audio-chunk step of parse_chunk_navi at navigation index `ix`:
slot lookup, optional id, chunk size.  Returns the new state, the
cursor, and the size read. -/
def audioChunkBody (st : State) (ix : Nat) (gb : GB) : State × GB × Nat :=
  let f := navi_find_index st ix
  let st1 := f.1
  let li := f.2
  let idp := if st1.is_sync_frame then (true, gb)
             else if st1.full_channel_mix_flag then (false, gb)
             else gb.get_bits1
  let upd := if idp.1 then
      let idv := get_bits_var idp.2 table2468 true
      let cur := st1.navi.getD li naviZero
      ({st1 with navi := st1.navi.set li {cur with id := idv.1}}, idv.2)
    else (st1, idp.2)
  let bv := get_bits_var upd.2 table_audio_chunk_sizes true
  let cur := upd.1.navi.getD li naviZero
  ({upd.1 with
      chunk_bytes := upd.1.chunk_bytes + bv.1,
      navi := upd.1.navi.set li {cur with bytes := bv.1}}, bv.2, bv.1)

/-- Audio-chunk loop of parse_chunk_navi; the third component is a ghost
log of the (index, bytes) pairs read, used only in theorem statements. -/
def audioChunkLoop : Nat → State × GB × List (Nat × Nat) → State × GB × List (Nat × Nat)
  | 0, acc => acc
  | r + 1, (st, gb, log) =>
      let ix := if st.full_channel_mix_flag then ((0 : Nat), gb)
                else get_bits_var gb table2468 true
      let b := audioChunkBody st ix.1 ix.2
      audioChunkLoop r (b.1, b.2.1, log ++ [(ix.1, b.2.2)])

/-- parse_chunk_navi.  Never fails in the model (its only C failure
paths are allocation failures).  Also returns the ghost audio-chunk
log. -/
def parse_chunk_navi (st : State) (gb : GB) : State × GB × List (Nat × Nat) :=
  let st0 := {st with chunk_bytes := 0}
  let cc := if st0.full_channel_mix_flag then
      ((if st0.is_sync_frame then 1 else 0), gb)
    else get_bits_var gb table2468 true
  let cl := chunkLoop cc.1 ({st0 with chunk := []}, cc.2)
  let ac := if !cl.1.full_channel_mix_flag then get_bits_var cl.2 table2468 true
            else (1, cl.2)
  let stc := if cl.1.is_sync_frame then navi_clear cl.1 else navi_clear_present cl.1
  let lp := audioChunkLoop ac.1 (stc, ac.2, [])
  (navi_purge lp.1, lp.2.1, lp.2.2)

/-! ## MD01 metadata chunk parsing (Tables 6-6, 7-4..7-26) -/

/-- parse_md_chunk_list (Table 6-6): read the object id list. -/
def objListLoop : Nat → GB → List Nat → List Nat × GB
  | 0, gb, acc => (acc, gb)
  | r + 1, gb, acc =>
      let b := gb.get_bits1
      let v := b.2.get_bits (if b.1 then 8 else 4)
      objListLoop r v.2 (acc ++ [v.1])

/-- Width table of parse_md_chunk_list. -/
def mdListTable : List Nat := [3, 4, 6, 8]

/-- parse_md_chunk_list: full-channel-mix uses the single default object
id 256; otherwise a VarField count followed by 4- or 8-bit ids. -/
def parse_md_chunk_list (st : State) (mi : Nat) (gb : GB) : State × GB :=
  let md := st.md01.getD mi (md01Zero 0)
  if st.full_channel_mix_flag then
    ({st with md01 := st.md01.set mi {md with object_list := [256]}}, gb)
  else
    let c := get_bits_var gb mdListTable true
    let l := objListLoop c.1 c.2 []
    ({st with md01 := st.md01.set mi {md with object_list := l.1}}, l.2)

/-- skip_mp_param_set (Table 7-9). -/
def skip_mp_param_set (st : State) (mi : Nat) (gb : GB) (nominal_flag : Bool) :
    State × GB :=
  let a := get_bits_md01 st mi gb 6
  let b := if !nominal_flag then
      let r := get_bits_md01 a.2.1 mi a.2.2 5
      (r.2.1, r.2.2)
    else (a.2.1, a.2.2)
  let c := get_bits_md01 b.1 mi b.2 (if nominal_flag then 2 else 4)
  (c.2.1, c.2.2)

/-- Loudness-set loop of parse_static_md_params. -/
def mpParamLoop : Nat → State → Nat → GB → Bool → State × GB
  | 0, st, _, gb, _ => (st, gb)
  | r + 1, st, mi, gb, nominal =>
      let s := skip_mp_param_set st mi gb nominal
      mpParamLoop r s.1 mi s.2 nominal

/-- The three-iteration metadata-type loop of parse_static_md_params
(Table 7-12). -/
def smdTypeLoop : Nat → State → Nat → GB → State × GB
  | 0, st, _, gb => (st, gb)
  | r + 1, st, mi, gb =>
      let f := get_bits_md01 st mi gb 1
      let g := if f.1 = 1 then
          let c := get_bits_md01 f.2.1 mi f.2.2 4
          if c.1 = 15 then
            let d := get_bits_md01 c.2.1 mi c.2.2 15
            (d.2.1, d.2.2)
          else (c.2.1, c.2.2)
        else (f.2.1, f.2.2)
      let sm := get_bits_md01 g.1 mi g.2 1
      let h := if sm.1 = 1 then
          let d := get_bits_md01 sm.2.1 mi sm.2.2 (6 * 6)
          (d.2.1, d.2.2)
        else (sm.2.1, sm.2.2)
      smdTypeLoop r h.1 mi h.2

/-- parse_static_md_params (Table 7-8).  The final alignment subtraction
`packets * size - get_bits_count` is the C's own (int) expression,
modelled with truncated Nat subtraction. -/
def parse_static_md_params (st : State) (mi : Nat) (gb : GB) (only_first : Bool) :
    State × GB :=
  let nf := if !st.full_channel_mix_flag then
      let r := get_bits_md01 st mi gb 1
      (decide (r.1 = 1), r.2.1, r.2.2)
    else (true, st, gb)
  let nominal := nf.1
  let ls := if nominal then
      if !nf.2.1.full_channel_mix_flag then
        let r := get_bits_md01 nf.2.1 mi nf.2.2 1
        ((if r.1 = 1 then 3 else 1), r.2.1, r.2.2)
      else (1, nf.2.1, nf.2.2)
    else
      let r := get_bits_md01 nf.2.1 mi nf.2.2 4
      (r.1 + 1, r.2.1, r.2.2)
  let lp := mpParamLoop ls.1 ls.2.1 mi ls.2.2 nominal
  if only_first then lp
  else
    let n1 := if !nominal then
        let r := get_bits_md01 lp.1 mi lp.2 1
        (r.2.1, r.2.2)
      else lp
    let tl := smdTypeLoop 3 n1.1 mi n1.2
    let md := tl.1.md01.getD mi (md01Zero 0)
    let md1 := if !tl.1.full_channel_mix_flag then
        {md with gbPos := md.gbPos +
          (md.static_md_packets * md.static_md_packet_size - md.gbPos)}
      else md
    ({tl.1 with md01 := tl.1.md01.set mi {md1 with static_md_extracted := true}}, tl.2)

/-- The packet byte-copy loop of parse_multi_frame_md: read
`static_md_packet_size` bytes from the main cursor into `buf` at byte
offset `n`. -/
def bufCopyLoop : Nat → Nat → List Nat → GB → List Nat × GB
  | 0, _, buf, gb => (buf, gb)
  | r + 1, off, buf, gb =>
      let b := gb.get_bits 8
      bufCopyLoop r (off + 1) (buf.set off b.1) b.2

/-- Width tables of parse_multi_frame_md. -/
def mfmdTable1 : List Nat := [0, 6, 9, 12]

/-- Second width table of parse_multi_frame_md. -/
def mfmdTable2 : List Nat := [5, 7, 9, 11]

/-- The sync-frame initialization block of parse_multi_frame_md:
packet count and size, buffer (re)allocation, cursor reset and update
flag.  Reallocation extends `buf` with zero bytes (the C leaves the
tail indeterminate but always overwrites the bytes it later reads). -/
def mfmdInit (st : State) (mi : Nat) (gb : GB) : State × GB :=
  if st.is_sync_frame then
    let md0 := st.md01.getD mi (md01Zero 0)
    let pk := if st.full_channel_mix_flag then ((1 : Nat), (0 : Nat), gb)
      else
        let p := get_bits_var gb mfmdTable1 true
        let s := get_bits_var p.2 mfmdTable2 true
        (p.1 + 1, s.1 + 3, s.2)
    let n := pk.1 * pk.2.1
    let bufLen := (md0.buf.map List.length).getD 0
    let buf1 := if bufLen < n then
        some ((md0.buf.getD []) ++ List.replicate (n - bufLen) 0)
      else md0.buf
    let uf := if 1 < pk.1 then pk.2.2.get_bits1 else (true, pk.2.2)
    let md1 := {md0 with packets_acquired := 0, static_md_packets := pk.1,
                         static_md_packet_size := pk.2.1, buf := buf1,
                         gbPos := 0, static_md_update_flag := uf.1}
    ({st with md01 := st.md01.set mi md1}, uf.2)
  else (st, gb)

/-- The packet-acquisition block of parse_multi_frame_md: copy one
packet of bytes into `buf` and parse the static parameters after the
first and after the last packet. -/
def mfmdAcquire (st : State) (mi : Nat) (gb : GB) : State × GB :=
  let md := st.md01.getD mi (md01Zero 0)
  if md.packets_acquired < md.static_md_packets then
    let off := md.packets_acquired * md.static_md_packet_size
    let cp := bufCopyLoop md.static_md_packet_size off (md.buf.getD []) gb
    let bufN : Option (List Nat) := md.buf.map (fun _ => cp.1)
    let md2 : MD01 := {md with buf := bufN, packets_acquired := md.packets_acquired + 1}
    let st2 : State := {st with md01 := st.md01.set mi md2}
    if md2.packets_acquired = md2.static_md_packets then
      if md2.static_md_update_flag || !md2.static_md_extracted then
        parse_static_md_params st2 mi cp.2 false
      else (st2, cp.2)
    else if md2.packets_acquired = 1 then
      if md2.static_md_update_flag || !md2.static_md_extracted then
        parse_static_md_params st2 mi cp.2 true
      else (st2, cp.2)
    else (st2, cp.2)
  else (st, gb)

/-- parse_multi_frame_md (Table 7-7). -/
def parse_multi_frame_md (st : State) (mi : Nat) (gb : GB) : State × GB :=
  let ini := mfmdInit st mi gb
  mfmdAcquire ini.1 mi ini.2

/-- Width table of is_suitable_for_render. -/
def suitableTable : List Nat := [8, 10, 12, 14]

/-- is_suitable_for_render (Table 7-18): group ids (>= 224) are always
suitable; otherwise a gating bit, and on rejection the render data is
skipped. -/
def is_suitable_for_render (gb : GB) (object_id : Nat) : Bool × GB :=
  if 224 ≤ object_id then (true, gb)
  else
    let b := gb.get_bits1
    if b.1 then (true, b.2)
    else
      let g := b.2.skip_bits 1
      let v := get_bits_var g suitableTable true
      (false, v.2.skip_bits v.1)

/-- mask_table of parse_ch_mask_params (Table 7-27). -/
def chMaskTable : List Nat :=
  [0x000001, 0x000002, 0x000006, 0x00000F, 0x00001F, 0x00084B, 0x00002F,
   0x00802F, 0x00486B, 0x00886B, 0x03FBFB, 0x000003, 0x000007, 0x000843]

/-- parse_ch_mask_params (Table 7-26) on object slot `oid` of MD01 `mi`. -/
def parse_ch_mask_params (st : State) (mi oid : Nat) (gb : GB) : State × GB :=
  let md := st.md01.getD mi (md01Zero 0)
  let obj := md.object.getD oid mdObjectZero
  let ci := if obj.rep_type = REP_TYPE_BINAURAL then ((1 : Nat), gb) else gb.get_bits 4
  let mk := if ci.1 = 14 then ci.2.get_bits 16
            else if ci.1 = 15 then ci.2.get_bits 32
            else (chMaskTable.getD ci.1 0, ci.2)
  let md1 := {md with object := md.object.set oid {obj with ch_activity_mask := mk.1}}
  ({st with md01 := st.md01.set mi md1}, mk.2)

/-- Width tables of parse_object_metadata. -/
def omdTable2 : List Nat := [1, 4, 4, 8]

/-- Second width table of parse_object_metadata. -/
def omdTable3 : List Nat := [3, 3, 4, 8]

/-- The per-object importance/limits skip block of parse_object_metadata
(only moves the cursor). -/
def omdSkipBlock (iol o3d : Bool) (gb : GB) : GB :=
  let g1 := gb.skip_bits 3
  let b1 := g1.get_bits1
  let g2 := if b1.1 then
      let b2 := b1.2.get_bits1
      b2.2.skip_bits (if b2.1 then 3 else 5)
    else b1.2
  let g3 := (get_bits_var g2 omdTable2 true).2
  let g4 := (get_bits_var g3 omdTable3 true).2
  let b3 := g4.get_bits1
  let g5 := if b3.1 then b3.2.skip_bits 8 else b3.2
  let b4 := g5.get_bits1
  if b4.1 && iol then
    let b5 := b4.2.get_bits1
    if b5.1 then b5.2.skip_bits (5 + 6 * (if o3d then 1 else 0))
    else b5.2
  else b4.2

/-- parse_object_metadata (Table 7-22) on object slot `oid` (= object_id). -/
def parse_object_metadata (st : State) (mi oid : Nat) (start_frame_flag : Bool)
    (object_id : Nat) (gb : GB) : State × GB :=
  let gb0 := gb.skip_bits (if object_id ≠ 256 then 1 else 0)
  if start_frame_flag then
    let md := st.md01.getD mi (md01Zero 0)
    let obj := md.object.getD oid mdObjectZero
    let rp := gb0.get_bits 3
    let md1 := {md with object := md.object.set oid {obj with rep_type := rp.1}}
    let st1 := {st with md01 := st.md01.set mi md1}
    let rep := rp.1
    let ch_mask_object_flag := rep = 0 || rep = 1 || rep = 2 || rep = 3
    let object_3d_metadata_flag := rep = 6 || rep = 7
    if ch_mask_object_flag then
      let gbA := if object_id ≠ 256 then
          omdSkipBlock st1.interactive_obj_limits_present object_3d_metadata_flag rp.2
        else rp.2
      parse_ch_mask_params st1 mi oid gbA
    else (st1, rp.2)
  else (st, gb0)

/-- The object loop of parse_md01 (Table 7-16): scan the object list,
skipping objects rejected for rendering; parse the first suitable one
and stop. -/
def md01ObjLoop (st : State) (mi pres_index : Nat) (gb : GB) :
    List Nat → State × GB
  | [] => (st, gb)
  | id :: rest =>
      let su := is_suitable_for_render gb id
      if !su.1 then md01ObjLoop st mi pres_index su.2 rest
      else
        let md := st.md01.getD mi (md01Zero 0)
        let obj := md.object.getD id mdObjectZero
        let md1 := {md with object := md.object.set id {obj with pres_index := pres_index}}
        let st1 := {st with md01 := st.md01.set mi md1}
        let stepped := if !obj.started then
            let cur := md1.object.getD id mdObjectZero
            let objs := md1.object.set id {cur with pres_index := pres_index, started := true}
            let md2 := {md1 with object := objs}
            (true, {st1 with md01 := st1.md01.set mi md2},
             su.2.skip_bits (if id ≠ 256 then 1 else 0))
          else (false, st1, su.2)
        if id < 224 || 255 < id then
          parse_object_metadata stepped.2.1 mi id stepped.1 id stepped.2.2
        else (stepped.2.1, stepped.2.2)

/-- The four optional scaling-data reads of parse_md01 (Table 7-5). -/
def scalingLoop : Nat → GB → GB
  | 0, gb => gb
  | r + 1, gb =>
      let b := gb.get_bits1
      scalingLoop r (b.2.skip_bits (5 * (if b.1 then 1 else 0)))

/-- parse_md01 (Table 7-4). -/
def parse_md01 (st : State) (mi pres_index : Nat) (gb : GB) : State × GB :=
  let pre := if (st.audio.getD pres_index uhdAudioZero).selectable then
      let g1 := scalingLoop 4 gb
      let b := g1.get_bits1
      if b.1 then parse_multi_frame_md st mi b.2 else (st, b.2)
    else (st, gb)
  let st1 := pre.1
  let md := st1.md01.getD mi (md01Zero 0)
  let mdz := {md with object := List.replicate 257 mdObjectZero}
  let st2 := {st1 with md01 := st1.md01.set mi mdz}
  let g2 := if !st2.full_channel_mix_flag then
      let b := pre.2.get_bits1
      b.2.skip_bits (11 * (if b.1 then 1 else 0))
    else pre.2
  md01ObjLoop st2 mi pres_index g2 ((st2.md01.getD mi (md01Zero 0)).object_list)

/-- Presentation-index width table of parse_chunks. -/
def table_aud_pres : List Nat := [0, 2, 4, 4]

/-- The chunk loop of parse_chunks (Table 6-2): validate the chunk CRC
when flagged, parse MD01 chunks (id 1), and align to each chunk's end.
Returns (failed, state, cursor). -/
def chunksLoop (data : List Nat) : List UHDChunk → State → GB → Bool × State × GB
  | [], st, gb => (false, st, gb)
  | c :: rest, st, gb =>
      let bit_next := gb.pos + c.bytes * 8
      if c.crc_flag && check_crc data gb.pos c.bytes then (true, st, gb)
      else
        let idr := gb.get_bits 8
        if idr.1 = 1 then
          let pi := get_bits_var idr.2 table_aud_pres true
          if 255 < pi.1 then (true, st, pi.2)
          else
            let fnd := match chunk_find_md01 st 1 with
              | some i => (st, i)
              | none => chunk_append_md01 st 1
            let mcl := parse_md_chunk_list fnd.1 fnd.2 pi.2
            let pm := parse_md01 mcl.1 fnd.2 pi.1 mcl.2
            chunksLoop data rest pm.1 (pm.2.skip_bits (bit_next - pm.2.pos))
        else chunksLoop data rest st (idr.2.skip_bits (bit_next - idr.2.pos))

/-- parse_chunks (Table 6-2). -/
def parse_chunks (st : State) (gb : GB) (data : List Nat) : Bool × State × GB :=
  chunksLoop data st.chunk st gb

/-! ## dtsuhd_frame -/

/-- struct DTSUHDFrameInfo.  The `duration` member is a C `double`
(`sample_count / sample_rate`); floating point is not modelled and no
claim concerns it. -/
structure FrameInfo where
  frame_bytes : Nat
  sample_count : Nat
  sample_rate : Nat
  sync : Bool
deriving Repr, DecidableEq

/-- Result of dtsuhd_frame: status, final state, the two optional out
parameters, and the ghost audio-chunk log of parse_chunk_navi. -/
structure FrameResult where
  status : Status
  st : State
  fi : Option FrameInfo
  di : Option DescriptorInfo
  naviLog : List (Nat × Nat)
deriving Repr, DecidableEq

/-- FTOC payload width table of dtsuhd_frame. -/
def table_payload : List Nat := [5, 8, 10, 12]

/-- The duration-fraction scan of dtsuhd_frame (6.3.6.9): the last
present navi entry with id 3 or 4 selects a fraction of 2 or 4. -/
def fractionOf (navi : List NAVI) : Nat :=
  navi.foldl
    (fun f s => if s.present then (if s.id = 3 then 2 else if s.id = 4 then 4 else f)
                else f) 1

/-- Assemble the FrameInfo and return OK (the tail of dtsuhd_frame). -/
def frameFinish (st : State) (di : Option DescriptorInfo) (wantFi : Bool)
    (log : List (Nat × Nat)) : FrameResult :=
  let fraction := fractionOf st.navi
  let fi := if wantFi then
      some ⟨st.frame_bytes,
            st.frame_duration * st.sample_rate / (st.clock_rate * fraction),
            st.sample_rate, st.is_sync_frame⟩
    else none
  ⟨.ok, st, fi, di, log⟩

/-- The metadata-chunk walk of the frame tail: parse_chunks from the
cursor aligned past the FTOC CRC. -/
def tailPc (st5 : State) (gbn : GB) (data : List Nat) : Bool × State × GB :=
  parse_chunks st5 (gbn.skip_bits (st5.ftoc_bytes * 8 - gbn.pos)) data

/-- The tail of dtsuhd_frame after the navigation stage: frame-size
check, optional metadata-chunk walk and descriptor construction, then
FrameInfo assembly. -/
def frameTail (st5 : State) (gbn : GB) (log : List (Nat × Nat))
    (data : List Nat) (wantFi wantDi : Bool) : FrameResult :=
  if data.length < st5.frame_bytes then ⟨.incomplete, st5, none, none, log⟩
  else
    if wantDi && st5.is_sync_frame then
      if (tailPc st5 gbn data).1 then
        ⟨.invalid_frame, (tailPc st5 gbn data).2.1, none, none, log⟩
      else
        frameFinish (tailPc st5 gbn data).2.1
          (some (update_descriptor (tailPc st5 gbn data).2.1)) wantFi log
    else frameFinish st5 none wantFi log

/-- The syncword read of dtsuhd_frame: the cursor after the 32-bit
read at the head of the buffer. -/
def stageGb1 (data : List Nat) : GB := ((GB.mk data 0).get_bits 32).2

/-- The state after the syncword gate updates of dtsuhd_frame. -/
def stage1 (st : State) (data : List Nat) : State :=
  {st with is_sync_frame := decide (showBitsAt data 0 32 = SYNCWORD),
           saw_sync := st.saw_sync || decide (showBitsAt data 0 32 = SYNCWORD)}

/-- The syncword-gate failure condition of dtsuhd_frame. -/
def gateFails (st : State) (data : List Nat) : Bool :=
  !(stage1 st data).saw_sync ||
    (!(stage1 st data).is_sync_frame && decide (showBitsAt data 0 32 ≠ NONSYNCWORD))

/-- The FTOC size VarField read of dtsuhd_frame. -/
def stageFv (data : List Nat) : Nat × GB :=
  get_bits_var (stageGb1 data) table_payload true

/-- The state after the FTOC size assignment of dtsuhd_frame. -/
def stage2 (st : State) (data : List Nat) : State :=
  {stage1 st data with ftoc_bytes := (stageFv data).1 + 1}

/-- The FTOC-size rejection condition of dtsuhd_frame. -/
def ftocBad (st : State) (data : List Nat) : Bool :=
  decide ((stage2 st data).ftoc_bytes < 5) ||
    decide (data.length ≤ (stage2 st data).ftoc_bytes)

/-- The parse_stream_params stage of dtsuhd_frame. -/
def stageSp (st : State) (data : List Nat) : Bool × State × GB :=
  parse_stream_params (stage2 st data) (stageFv data).2 data

/-- The parse_aud_pres_params stage of dtsuhd_frame. -/
def stageAp (st : State) (data : List Nat) : State × GB :=
  parse_aud_pres_params (stageSp st data).2.1 (stageSp st data).2.2

/-- The parse_chunk_navi stage of dtsuhd_frame. -/
def stageCn (st : State) (data : List Nat) : State × GB × List (Nat × Nat) :=
  parse_chunk_navi (stageAp st data).1 (stageAp st data).2

/-- The state after the frame-size assignment of dtsuhd_frame. -/
def stage5 (st : State) (data : List Nat) : State :=
  {(stageCn st data).1 with
    frame_bytes := (stageCn st data).1.ftoc_bytes + (stageCn st data).1.chunk_bytes}

/-- dtsuhd_frame: parse a single frame from the head of `data`, written
as the sequence of its stages.  `wantFi`/`wantDi` model the nullability
of the two out parameters. -/
def dtsuhd_frame (st : State) (data : List Nat) (wantFi wantDi : Bool) :
    FrameResult :=
  if data.length < 4 then ⟨.incomplete, st, none, none, []⟩
  else if gateFails st data then ⟨.nosync, stage1 st data, none, none, []⟩
  else if ftocBad st data then ⟨.incomplete, stage2 st data, none, none, []⟩
  else if (stageSp st data).1 then
    ⟨.invalid_frame, (stageSp st data).2.1, none, none, []⟩
  else
    frameTail (stage5 st data) (stageCn st data).2.1 (stageCn st data).2.2
      data wantFi wantDi

/-! ## Container payload locator (dtsuhd_strmdata_payload) -/

/-- ASCII bytes of "DTSHDHDR". -/
def hdrTag : List Nat := [0x44, 0x54, 0x53, 0x48, 0x44, 0x48, 0x44, 0x52]

/-- ASCII bytes of "STRMDATA". -/
def strmTag : List Nat := [0x53, 0x54, 0x52, 0x4D, 0x44, 0x41, 0x54, 0x41]

/-- AV_RB64: big-endian 64-bit read at byte offset `off`. -/
def rb64 (data : List Nat) (off : Nat) : Nat :=
  (List.range 8).foldl (fun acc j => acc * 256 + data.getD (off + j) 0) 0

/-- The 8 tag bytes at byte offset `off` (memcmp's view). -/
def tagAt (data : List Nat) (off : Nat) : List Nat :=
  (data.drop off).take 8

/-- The chunk-walking loop of dtsuhd_strmdata_payload: while a chunk
header plus 4 bytes fits, return `(offset + 16, size)` at the first
"STRMDATA" tag, else step over the chunk.  `(0, 0)` when not found.
`fuel` makes the recursion structural; each step advances the offset by
at least a whole 16-byte chunk header, so `data.length - offset` fuel
units always reach the loop's own exit and the result is exact. -/
def strmdataLoop (data : List Nat) : Nat → Nat → Nat × Nat
  | 0, _ => (0, 0)
  | fuel + 1, offset =>
      if offset + CHUNK_HEADER + 4 ≤ data.length then
        if tagAt data offset = strmTag then
          (offset + CHUNK_HEADER, rb64 data (offset + 8))
        else strmdataLoop data fuel (offset + (rb64 data (offset + 8) + CHUNK_HEADER))
      else (0, 0)

/-- dtsuhd_strmdata_payload: offset and size of the STRMDATA payload of
a DTSHDHDR container, `(0, 0)` (offset 0) when the input is not such a
container or holds no reachable STRMDATA chunk. -/
def dtsuhd_strmdata_payload (data : List Nat) : Nat × Nat :=
  if data.length ≤ CHUNK_HEADER then (0, 0)
  else if tagAt data 0 ≠ hdrTag then (0, 0)
  else strmdataLoop data data.length 0

/-! ## Concrete streams used by witnesses and counterexamples -/

/-- A minimal full-channel-mix sync frame: ftoc 11 bytes (CRC-valid),
one 3-byte metadata chunk (MD01, default object 256, activity 0x1) and
one 2-byte audio chunk (navi index 0, id 0); 16 bytes total. -/
def syncFrameW : List Nat :=
  [0x40, 0x41, 0x1B, 0xF2, 0x2A, 0x08, 0x03, 0x00, 0x10, 0x10, 0xB8,
   0x01, 0x00, 0x00, 0x00, 0x00]

/-- A sync frame (not full-channel-mix) whose FTOC passes the CRC and
declares zero FTOC chunks and two audio chunks with the same navigation
index 0 (sizes 1 and 2); 18 bytes total. -/
def dupIndexFrame : List Nat :=
  [0x40, 0x41, 0x1B, 0xF2, 0x39, 0x00, 0x10, 0x00, 0x80, 0x00, 0x40,
   0x00, 0x80, 0x69, 0xCF, 0x00, 0x00, 0x00]

/-- A CRC-valid full-channel-mix sync frame that fails stream-parameter
validation with frame_duration = 0 (selector 3) after clock_rate was
already set to 48000. -/
def failDurFrame : List Nat :=
  [0x40, 0x41, 0x1B, 0xF2, 0x1F, 0x88, 0x54, 0x7E, 0x00]

/-- A CRC-valid full-channel-mix sync frame that fails stream-parameter
validation with clock_rate = 0 (selector 3) after frame_duration was
already set to 512. -/
def failClockFrame : List Nat :=
  [0x40, 0x41, 0x1B, 0xF2, 0x1E, 0x0C, 0xB6, 0x43, 0x00]

/-- A non-sync frame (ftoc 6 bytes, one 1-byte audio chunk) that parses
OK on a full-channel-mix state. -/
def nonsyncSmall : List Nat := [0x71, 0xC4, 0x42, 0xE8, 0x14, 0x01, 0x00]

/-- A non-sync frame with a CRC-valid 10-byte FTOC (zero chunks, one
1-byte audio chunk) that parses OK on a fresh-flag state. -/
def nonsyncCrc : List Nat :=
  [0x71, 0xC4, 0x42, 0xE8, 0x24, 0x10, 0x00, 0x40, 0x5F, 0x5B, 0x00]

/-! ## Bit-reader lemmas -/

/-- One-bit extension of showBitsAt. -/
theorem showBitsAt_succ (d : List Nat) (p n : Nat) :
    showBitsAt d p (n + 1) = 2 * showBitsAt d p n + bitAt d (p + n) := by
  unfold showBitsAt
  rw [List.range_succ, List.foldl_append]
  simp [Nat.mul_comm]

/-- A single bit is 0 or 1. -/
theorem bitAt_lt (d : List Nat) (i : Nat) : bitAt d i < 2 :=
  Nat.mod_lt _ (by omega)

/-- An n-bit read is below 2^n. -/
theorem showBitsAt_lt (d : List Nat) (p n : Nat) : showBitsAt d p n < 2 ^ n := by
  induction n with
  | zero => simp [showBitsAt]
  | succ k ih =>
      have hb := bitAt_lt d (p + k)
      rw [showBitsAt_succ]
      have : 2 ^ (k + 1) = 2 * 2 ^ k := by ring
      omega

/-! ## C4: the VarField decoder -/

/-- The behaviour C4 requires of get_bits_var at prefix index `index`
with `used` consumed prefix bits, stated from the spec's words. -/
def c4post (d : List Nat) (p : Nat) (W : List Nat) (r : Nat × GB)
    (index used : Nat) : Prop :=
  (0 < W.getD index 0 →
    r.2.pos = p + used + W.getD index 0 ∧
    r.1 = (∑ j ∈ Finset.range index, 2 ^ W.getD j 0) +
      showBitsAt d (p + used) (W.getD index 0)) ∧
  (W.getD index 0 = 0 → r.1 = 0 ∧ r.2.pos = p + used)

/-- C4: for every input bitstream position and every 4-entry width table,
get_bits_var with add = true consumes exactly 1 prefix bit when the
3-bit prefix is 0..3 (index 0), 2 bits when 4..5 (index 1), 3 bits when
6 (index 2) or 7 (index 3); then, when W[index] > 0, it reads W[index]
further bits as unsigned v and returns v plus the sum of 2^W[j] for
j in [0, index), and when W[index] = 0 it returns 0. -/
theorem c4_get_bits_var_spec (d : List Nat) (p : Nat) (W : List Nat)
    (hW : W.length = 4) :
    (showBitsAt d p 3 < 4 → c4post d p W (get_bits_var ⟨d, p⟩ W true) 0 1) ∧
    (4 ≤ showBitsAt d p 3 ∧ showBitsAt d p 3 ≤ 5 →
      c4post d p W (get_bits_var ⟨d, p⟩ W true) 1 2) ∧
    (showBitsAt d p 3 = 6 → c4post d p W (get_bits_var ⟨d, p⟩ W true) 2 3) ∧
    (showBitsAt d p 3 = 7 → c4post d p W (get_bits_var ⟨d, p⟩ W true) 3 3) := by
  have h8 : showBitsAt d p 3 < 8 := showBitsAt_lt d p 3
  refine ⟨?_, ?_, ?_, ?_⟩
  · intro h
    have hc : showBitsAt d p 3 = 0 ∨ showBitsAt d p 3 = 1 ∨
        showBitsAt d p 3 = 2 ∨ showBitsAt d p 3 = 3 := by omega
    rcases hc with hc | hc | hc | hc <;>
      · unfold c4post get_bits_var
        simp only [GB.show_bits, hc, index_table, bits_used, List.getD]
        norm_num [GB.get_bits, GB.skip_bits, GB.show_bits]
        split_ifs with hw
        · simp [Finset.sum_range_zero]
          omega
        · simp
          omega
  · rintro ⟨h4, h5⟩
    have hc : showBitsAt d p 3 = 4 ∨ showBitsAt d p 3 = 5 := by omega
    rcases hc with hc | hc <;>
      · unfold c4post get_bits_var
        simp only [GB.show_bits, hc, index_table, bits_used, List.getD]
        norm_num [GB.get_bits, GB.skip_bits, GB.show_bits]
        split_ifs with hw
        · simp [Finset.sum_range_succ, List.range_succ]
          omega
        · simp
          omega
  · intro hc
    unfold c4post get_bits_var
    simp only [GB.show_bits, hc, index_table, bits_used, List.getD]
    norm_num [GB.get_bits, GB.skip_bits, GB.show_bits]
    split_ifs with hw
    · simp [Finset.sum_range_succ, List.range_succ]
      omega
    · simp
      omega
  · intro hc
    unfold c4post get_bits_var
    simp only [GB.show_bits, hc, index_table, bits_used, List.getD]
    norm_num [GB.get_bits, GB.skip_bits, GB.show_bits]
    split_ifs with hw
    · simp [Finset.sum_range_succ, List.range_succ]
      omega
    · simp
      omega

/-- Witness for C4 at a concrete stream and the {5,8,10,12} table. -/
theorem c4_get_bits_var_spec_witness :
    c4post [0x2A, 0x08] 0 table_payload
      (get_bits_var ⟨[0x2A, 0x08], 0⟩ table_payload true) 0 1 :=
  (c4_get_bits_var_spec [0x2A, 0x08] 0 table_payload (by decide)).1 (by decide)

/-- C9: for each of the 20 activity-map rows taken singly, translating
an object whose ch_activity_mask equals exactly that row's activity
mask through extract_object_info yields channel_mask equal to the row's
normative mask and channel_count equal to its population count. -/
theorem c9_activity_rows :
    (activity_map.all (fun row =>
      let di := extract_object_info
        (some {mdObjectZero with ch_activity_mask := row.activity_mask})
        descriptorZero
      decide (di.channel_mask = row.channel_mask) &&
      decide (di.channel_count = popcount row.channel_mask))) = true := by decide

/-! ## C8: the container payload locator -/

/-- The chunk chain of a DTSHDHDR container: `StrmStep data k K` holds
when the walk from offset `k` reaches offset `K` through chunks none of
which are tagged "STRMDATA". -/
inductive StrmStep (data : List Nat) : Nat → Nat → Prop where
  | refl (k : Nat) : StrmStep data k k
  | step {k K : Nat} : k + CHUNK_HEADER + 4 ≤ data.length →
      tagAt data k ≠ strmTag →
      StrmStep data (k + (rb64 data (k + 8) + CHUNK_HEADER)) K →
      StrmStep data k K

/-- The locator loop returns the first reachable STRMDATA chunk. -/
theorem strmdataLoop_finds (data : List Nat) {k K : Nat}
    (h : StrmStep data k K) (htag : tagAt data K = strmTag)
    (hfit : K + CHUNK_HEADER + 4 ≤ data.length) :
    ∀ fuel, data.length ≤ k + fuel →
      strmdataLoop data fuel k = (K + CHUNK_HEADER, rb64 data (K + 8)) := by
  induction h with
  | refl k =>
      intro fuel hf
      cases fuel with
      | zero => exfalso; simp [CHUNK_HEADER] at hfit; omega
      | succ f =>
          rw [strmdataLoop, if_pos hfit, if_pos htag]
  | step hle htg _ ih =>
      intro fuel hf
      cases fuel with
      | zero => exfalso; simp [CHUNK_HEADER] at hle; omega
      | succ f =>
          rw [strmdataLoop, if_pos hle, if_neg htg]
          refine ih htag hfit f ?_
          simp only [CHUNK_HEADER] at hle ⊢
          omega

/-- C8 (amended): a buffer beginning "DTSHDHDR" containing a reachable
"STRMDATA" chunk whose header at offset K is followed by at least 4
readable bytes yields offset K+16 and that chunk's size; a buffer not
beginning "DTSHDHDR" yields offset 0. -/
theorem c8_strmdata_locator (data : List Nat) (K : Nat)
    (hlen : CHUNK_HEADER < data.length) (hhdr : tagAt data 0 = hdrTag)
    (hreach : StrmStep data 0 K) (htag : tagAt data K = strmTag)
    (hfit : K + CHUNK_HEADER + 4 ≤ data.length) :
    dtsuhd_strmdata_payload data = (K + CHUNK_HEADER, rb64 data (K + 8)) ∧
    ∀ d2 : List Nat, tagAt d2 0 ≠ hdrTag → (dtsuhd_strmdata_payload d2).1 = 0 := by
  constructor
  · unfold dtsuhd_strmdata_payload
    rw [if_neg (by omega), if_neg (by simp [hhdr])]
    exact strmdataLoop_finds data hreach htag hfit data.length (by omega)
  · intro d2 h2
    unfold dtsuhd_strmdata_payload
    split_ifs <;> simp_all

/-- A container whose single STRMDATA chunk has a 4-byte payload:
DTSHDHDR chunk (payload 4) then STRMDATA at offset 20 (payload 4). -/
def c8w : List Nat :=
  hdrTag ++ [0, 0, 0, 0, 0, 0, 0, 4] ++ [9, 9, 9, 9] ++
  strmTag ++ [0, 0, 0, 0, 0, 0, 0, 4] ++ [7, 7, 7, 7]

/-- Witness for C8: the locator returns (36, 4) on `c8w`, and returns
offset 0 on a non-container buffer. -/
theorem c8_strmdata_locator_witness :
    dtsuhd_strmdata_payload c8w = (36, 4) ∧
    (dtsuhd_strmdata_payload [9, 9, 9]).1 = 0 := by
  have hstep : StrmStep c8w 0 20 := by
    have h1 : (0 : Nat) + (rb64 c8w 8 + CHUNK_HEADER) = 20 := by decide
    exact StrmStep.step (by decide) (by decide) (h1 ▸ StrmStep.refl 20)
  have h := c8_strmdata_locator c8w 20 (by decide) (by decide) hstep
    (by decide) (by decide)
  exact ⟨h.1, h.2 [9, 9, 9] (by decide)⟩

/-- A container whose STRMDATA chunk (empty payload) ends exactly at the
end of the buffer: its header at offset 16 is not followed by 4 further
bytes. -/
def c8ce : List Nat :=
  hdrTag ++ [0, 0, 0, 0, 0, 0, 0, 0] ++ strmTag ++ [0, 0, 0, 0, 0, 0, 0, 0]

/-- Counterexample to C8 as stated: `c8ce` begins "DTSHDHDR" and wholly
contains a STRMDATA chunk whose 16-byte header starts at K = 16 with
payload size N = 0, yet the locator returns offset 0 instead of
K + 16 = 32: the loop demands 4 readable bytes beyond each chunk header. -/
theorem c8_counterexample :
    tagAt c8ce 0 = hdrTag ∧ tagAt c8ce 16 = strmTag ∧ rb64 c8ce 24 = 0 ∧
    c8ce.length = 16 + 16 ∧ dtsuhd_strmdata_payload c8ce = (0, 0) := by decide

/-! ## State-shape lemmas: which fields each stage can touch -/

/-- All State fields except md01, as a tuple. -/
def nonMd01 (a : State) :=
  (a.navi, a.audio, a.chunk, a.chunk_bytes, a.clock_rate, a.frame_bytes,
   a.frame_duration, a.frame_duration_code, a.ftoc_bytes, a.major_version,
   a.num_audio_pres, a.sample_rate, a.sample_rate_mod, a.full_channel_mix_flag,
   a.interactive_obj_limits_present, a.is_sync_frame, a.saw_sync)

theorem nonMd01_set_md01 (a : State) (m : List MD01) :
    nonMd01 {a with md01 := m} = nonMd01 a := rfl

theorem get_bits_md01_core (st : State) (mi : Nat) (gb : GB) (n : Nat) :
    nonMd01 (get_bits_md01 st mi gb n).2.1 = nonMd01 st := by
  simp only [get_bits_md01]
  split <;> rfl

theorem parse_md_chunk_list_core (st : State) (mi : Nat) (gb : GB) :
    nonMd01 (parse_md_chunk_list st mi gb).1 = nonMd01 st := by
  simp only [parse_md_chunk_list]
  split <;> rfl

theorem skip_mp_param_set_core (st : State) (mi : Nat) (gb : GB) (nf : Bool) :
    nonMd01 (skip_mp_param_set st mi gb nf).1 = nonMd01 st := by
  simp only [skip_mp_param_set]
  split_ifs <;> simp [get_bits_md01_core]

theorem mpParamLoop_core (n : Nat) :
    ∀ (st : State) (mi : Nat) (gb : GB) (nf : Bool),
      nonMd01 (mpParamLoop n st mi gb nf).1 = nonMd01 st := by
  induction n with
  | zero => intro st mi gb nf; rfl
  | succ k ih =>
      intro st mi gb nf
      show nonMd01 (mpParamLoop k _ mi _ nf).1 = nonMd01 st
      rw [ih, skip_mp_param_set_core]

theorem smdTypeLoop_core (n : Nat) :
    ∀ (st : State) (mi : Nat) (gb : GB),
      nonMd01 (smdTypeLoop n st mi gb).1 = nonMd01 st := by
  induction n with
  | zero => intro st mi gb; rfl
  | succ k ih =>
      intro st mi gb
      show nonMd01 (smdTypeLoop k _ mi _).1 = nonMd01 st
      rw [ih]
      split_ifs <;> simp [get_bits_md01_core] <;>
        first
        | rfl
        | (split_ifs <;> simp [get_bits_md01_core])

theorem parse_static_md_params_core (st : State) (mi : Nat) (gb : GB) (o : Bool) :
    nonMd01 (parse_static_md_params st mi gb o).1 = nonMd01 st := by
  simp only [parse_static_md_params]
  split_ifs <;>
    simp [get_bits_md01_core, mpParamLoop_core, smdTypeLoop_core, nonMd01_set_md01]

theorem mfmdInit_core (st : State) (mi : Nat) (gb : GB) :
    nonMd01 (mfmdInit st mi gb).1 = nonMd01 st := by
  simp only [mfmdInit]
  split
  · exact nonMd01_set_md01 _ _
  · rfl

theorem mfmdAcquire_core (st : State) (mi : Nat) (gb : GB) :
    nonMd01 (mfmdAcquire st mi gb).1 = nonMd01 st := by
  simp only [mfmdAcquire]
  split
  · split_ifs <;> simp [parse_static_md_params_core, nonMd01_set_md01]
  · rfl

theorem parse_multi_frame_md_core (st : State) (mi : Nat) (gb : GB) :
    nonMd01 (parse_multi_frame_md st mi gb).1 = nonMd01 st := by
  simp only [parse_multi_frame_md]
  rw [mfmdAcquire_core, mfmdInit_core]

theorem parse_ch_mask_params_core (st : State) (mi oid : Nat) (gb : GB) :
    nonMd01 (parse_ch_mask_params st mi oid gb).1 = nonMd01 st := by
  simp only [parse_ch_mask_params]
  split_ifs <;> simp [nonMd01_set_md01]

theorem parse_object_metadata_core (st : State) (mi oid : Nat) (sf : Bool)
    (oi : Nat) (gb : GB) :
    nonMd01 (parse_object_metadata st mi oid sf oi gb).1 = nonMd01 st := by
  simp only [parse_object_metadata]
  split_ifs <;>
    first
    | (rw [parse_ch_mask_params_core]; exact nonMd01_set_md01 _ _)
    | exact nonMd01_set_md01 _ _
    | rfl

set_option maxRecDepth 10000 in
theorem md01ObjLoop_core (l : List Nat) :
    ∀ (st : State) (mi pi : Nat) (gb : GB),
      nonMd01 (md01ObjLoop st mi pi gb l).1 = nonMd01 st := by
  induction l with
  | nil => intro st mi pi gb; rfl
  | cons id rest ih =>
      intro st mi pi gb
      simp only [md01ObjLoop]
      split
      · exact ih _ _ _ _
      · split
        · rw [parse_object_metadata_core]
          split <;> simp [nonMd01_set_md01]
        · split <;> simp [nonMd01_set_md01]

set_option maxRecDepth 10000 in
theorem parse_md01_core (st : State) (mi pi : Nat) (gb : GB) :
    nonMd01 (parse_md01 st mi pi gb).1 = nonMd01 st := by
  simp only [parse_md01]
  split_ifs <;>
    simp [md01ObjLoop_core, parse_multi_frame_md_core, nonMd01_set_md01]

theorem chunk_append_md01_core (st : State) (id : Nat) :
    nonMd01 (chunk_append_md01 st id).1 = nonMd01 st := rfl

theorem chunksLoop_core (data : List Nat) (l : List UHDChunk) :
    ∀ (st : State) (gb : GB), nonMd01 (chunksLoop data l st gb).2.1 = nonMd01 st := by
  induction l with
  | nil => intro st gb; rfl
  | cons c rest ih =>
      intro st gb
      simp only [chunksLoop]
      split_ifs <;>
        simp [ih, parse_md01_core, parse_md_chunk_list_core, chunk_append_md01_core,
          nonMd01_set_md01] <;>
        (try split) <;>
        simp [ih, parse_md01_core, parse_md_chunk_list_core, chunk_append_md01_core,
          nonMd01_set_md01]

theorem parse_chunks_core (st : State) (gb : GB) (data : List Nat) :
    nonMd01 (parse_chunks st gb data).2.1 = nonMd01 st := by
  simp only [parse_chunks]
  exact chunksLoop_core data st.chunk st gb


/-- All State fields except audio and num_audio_pres, as a tuple. -/
def nonAudio (a : State) :=
  (a.md01, a.navi, a.chunk, a.chunk_bytes, a.clock_rate, a.frame_bytes,
   a.frame_duration, a.frame_duration_code, a.ftoc_bytes, a.major_version,
   a.sample_rate, a.sample_rate_mod, a.full_channel_mix_flag,
   a.interactive_obj_limits_present, a.is_sync_frame, a.saw_sync)

theorem nonAudio_set_audio (a : State) (x : List UHDAudio) :
    nonAudio {a with audio := x} = nonAudio a := rfl

theorem papBody_core (st : State) (gb : GB) (a : Nat) :
    nonAudio (papBody st gb a).1 = nonAudio st := by
  simp only [papBody]
  split_ifs <;> simp [nonAudio_set_audio]

theorem papLoop_core (n : Nat) :
    ∀ (st : State) (gb : GB) (a : Nat), nonAudio (papLoop st gb a n).1 = nonAudio st := by
  induction n with
  | zero => intro st gb a; rfl
  | succ k ih =>
      intro st gb a
      show nonAudio (papLoop _ _ (a + 1) k).1 = nonAudio st
      rw [ih, papBody_core]

theorem parse_aud_pres_params_core (st : State) (gb : GB) :
    nonAudio (parse_aud_pres_params st gb).1 = nonAudio st := by
  simp only [parse_aud_pres_params]
  split_ifs <;> rw [papLoop_core] <;> rfl

/-- All State fields except navi, chunk and chunk_bytes, as a tuple. -/
def nonNavi (a : State) :=
  (a.md01, a.audio, a.clock_rate, a.frame_bytes, a.frame_duration,
   a.frame_duration_code, a.ftoc_bytes, a.major_version, a.num_audio_pres,
   a.sample_rate, a.sample_rate_mod, a.full_channel_mix_flag,
   a.interactive_obj_limits_present, a.is_sync_frame, a.saw_sync)

theorem navi_find_index_core (st : State) (d : Nat) :
    nonNavi (navi_find_index st d).1 = nonNavi st := by
  simp only [navi_find_index]
  cases h1 : st.navi.findIdx? (fun s => s.index = d) with
  | some i => simp only [h1]; rfl
  | none =>
      simp only [h1]
      cases h2 : st.navi.findIdx? (fun s => !s.present && s.bytes = 0) <;>
        simp only [h2] <;> rfl

theorem chunkLoop_core (n : Nat) :
    ∀ (st : State) (gb : GB), nonNavi (chunkLoop n (st, gb)).1 = nonNavi st := by
  induction n with
  | zero => intro st gb; rfl
  | succ k ih =>
      intro st gb
      show nonNavi (chunkLoop k (_, _)).1 = nonNavi st
      rw [ih]
      rfl

theorem audioChunkBody_core (st : State) (ix : Nat) (gb : GB) :
    nonNavi (audioChunkBody st ix gb).1 = nonNavi st := by
  simp only [audioChunkBody]
  split_ifs <;> exact navi_find_index_core st ix

theorem audioChunkLoop_core (n : Nat) :
    ∀ (st : State) (gb : GB) (log : List (Nat × Nat)),
      nonNavi (audioChunkLoop n (st, gb, log)).1 = nonNavi st := by
  induction n with
  | zero => intro st gb log; rfl
  | succ k ih =>
      intro st gb log
      show nonNavi (audioChunkLoop k (_, _, _)).1 = nonNavi st
      rw [ih, audioChunkBody_core]

theorem navi_purge_core (st : State) : nonNavi (navi_purge st) = nonNavi st := rfl

theorem navi_clear_core (st : State) : nonNavi (navi_clear st) = nonNavi st := rfl

theorem navi_clear_present_core (st : State) :
    nonNavi (navi_clear_present st) = nonNavi st := rfl

theorem parse_chunk_navi_core (st : State) (gb : GB) :
    nonNavi (parse_chunk_navi st gb).1 = nonNavi st := by
  simp only [parse_chunk_navi]
  rw [navi_purge_core, audioChunkLoop_core, apply_ite nonNavi, navi_clear_core,
    navi_clear_present_core, ite_self, chunkLoop_core]
  rfl

/-- All State fields parse_stream_params never writes, as a tuple. -/
def nonStream (a : State) :=
  (a.md01, a.navi, a.audio, a.chunk, a.chunk_bytes, a.frame_bytes,
   a.ftoc_bytes, a.num_audio_pres, a.is_sync_frame, a.saw_sync)

theorem parse_stream_params_core (st : State) (gb : GB) (data : List Nat) :
    nonStream (parse_stream_params st gb data).2.1 = nonStream st := by
  simp only [parse_stream_params, decode_version]
  split_ifs <;> rfl

theorem parse_stream_params_nonsync (st : State) (gb : GB) (data : List Nat)
    (h : st.is_sync_frame = false) :
    (parse_stream_params st gb data).2.1 = st := by
  simp only [parse_stream_params, h, Bool.false_eq_true, if_false]
  split_ifs <;> rfl


/-! ## Return-path analyses of dtsuhd_frame -/

/-- Exhaustive description of the return paths of dtsuhd_frame in terms
of the stage functions. -/
theorem frame_cases (st : State) (data : List Nat) (wf wd : Bool)
    (r : FrameResult) (hr : dtsuhd_frame st data wf wd = r) :
    (data.length < 4 ∧ r = ⟨.incomplete, st, none, none, []⟩) ∨
    (¬ data.length < 4 ∧ gateFails st data = true ∧
      r = ⟨.nosync, stage1 st data, none, none, []⟩) ∨
    (¬ data.length < 4 ∧ gateFails st data = false ∧ ftocBad st data = true ∧
      r = ⟨.incomplete, stage2 st data, none, none, []⟩) ∨
    (¬ data.length < 4 ∧ gateFails st data = false ∧ ftocBad st data = false ∧
      (stageSp st data).1 = true ∧
      r = ⟨.invalid_frame, (stageSp st data).2.1, none, none, []⟩) ∨
    (¬ data.length < 4 ∧ gateFails st data = false ∧ ftocBad st data = false ∧
      (stageSp st data).1 = false ∧
      r = frameTail (stage5 st data) (stageCn st data).2.1 (stageCn st data).2.2
            data wf wd) := by
  unfold dtsuhd_frame at hr
  split at hr
  next h =>
    exact Or.inl ⟨h, hr.symm⟩
  next h =>
    split at hr
    next h1 =>
      exact Or.inr (Or.inl ⟨h, h1, hr.symm⟩)
    next h1 =>
      have h1f : gateFails st data = false := Bool.eq_false_iff.mpr h1
      split at hr
      next h2 =>
        exact Or.inr (Or.inr (Or.inl ⟨h, h1f, h2, hr.symm⟩))
      next h2 =>
        have h2f : ftocBad st data = false := Bool.eq_false_iff.mpr h2
        split at hr
        next h3 =>
          exact Or.inr (Or.inr (Or.inr (Or.inl ⟨h, h1f, h2f, h3, hr.symm⟩)))
        next h3 =>
          have h3f : (stageSp st data).1 = false := Bool.eq_false_iff.mpr h3
          exact Or.inr (Or.inr (Or.inr (Or.inr ⟨h, h1f, h2f, h3f, hr.symm⟩)))

/-- Exhaustive description of the return paths of the frame tail. -/
theorem frameTail_cases (st5 : State) (gbn : GB) (log : List (Nat × Nat))
    (data : List Nat) (wf wd : Bool)
    (r : FrameResult) (hr : frameTail st5 gbn log data wf wd = r) :
    (data.length < st5.frame_bytes ∧ r = ⟨.incomplete, st5, none, none, log⟩) ∨
    (¬ data.length < st5.frame_bytes ∧ (wd && st5.is_sync_frame) = true ∧
      (tailPc st5 gbn data).1 = true ∧
      r = ⟨.invalid_frame, (tailPc st5 gbn data).2.1, none, none, log⟩) ∨
    (¬ data.length < st5.frame_bytes ∧ (wd && st5.is_sync_frame) = true ∧
      (tailPc st5 gbn data).1 = false ∧
      r = frameFinish (tailPc st5 gbn data).2.1
            (some (update_descriptor (tailPc st5 gbn data).2.1)) wf log) ∨
    (¬ data.length < st5.frame_bytes ∧ (wd && st5.is_sync_frame) = false ∧
      r = frameFinish st5 none wf log) := by
  unfold frameTail at hr
  split at hr
  next h =>
    exact Or.inl ⟨h, hr.symm⟩
  next h =>
    split at hr
    next h1 =>
      split at hr
      next h2 =>
        exact Or.inr (Or.inl ⟨h, h1, h2, hr.symm⟩)
      next h2 =>
        have h2f : (tailPc st5 gbn data).1 = false := Bool.eq_false_iff.mpr h2
        exact Or.inr (Or.inr (Or.inl ⟨h, h1, h2f, hr.symm⟩))
    next h1 =>
      have h1f : (wd && st5.is_sync_frame) = false := Bool.eq_false_iff.mpr h1
      exact Or.inr (Or.inr (Or.inr ⟨h, h1f, hr.symm⟩))

theorem frameFinish_status (st : State) (di : Option DescriptorInfo)
    (wf : Bool) (log : List (Nat × Nat)) :
    (frameFinish st di wf log).status = .ok := rfl

theorem frameFinish_st (st : State) (di : Option DescriptorInfo)
    (wf : Bool) (log : List (Nat × Nat)) :
    (frameFinish st di wf log).st = st := rfl

theorem frameFinish_di (st : State) (di : Option DescriptorInfo)
    (wf : Bool) (log : List (Nat × Nat)) :
    (frameFinish st di wf log).di = di := rfl

theorem frameFinish_log (st : State) (di : Option DescriptorInfo)
    (wf : Bool) (log : List (Nat × Nat)) :
    (frameFinish st di wf log).naviLog = log := rfl

theorem frameFinish_fi (st : State) (di : Option DescriptorInfo)
    (wf : Bool) (log : List (Nat × Nat)) :
    (frameFinish st di wf log).fi =
      if wf then
        some ⟨st.frame_bytes,
              st.frame_duration * st.sample_rate /
                (st.clock_rate * fractionOf st.navi),
              st.sample_rate, st.is_sync_frame⟩
      else none := rfl

/-! ## Field-preservation corollaries of the stage functions -/

/-- The sampling fields and the two sync flags, as a tuple. -/
def frameFields (a : State) : Nat × Nat × Nat × Bool × Bool :=
  (a.clock_rate, a.sample_rate, a.sample_rate_mod, a.is_sync_frame, a.saw_sync)

theorem ap_frameFields (st : State) (gb : GB) :
    frameFields (parse_aud_pres_params st gb).1 = frameFields st :=
  congrArg
    (fun t => (t.2.2.2.2.1, t.2.2.2.2.2.2.2.2.2.2.1, t.2.2.2.2.2.2.2.2.2.2.2.1,
      t.2.2.2.2.2.2.2.2.2.2.2.2.2.2.1, t.2.2.2.2.2.2.2.2.2.2.2.2.2.2.2))
    (parse_aud_pres_params_core st gb)

theorem cn_frameFields (st : State) (gb : GB) :
    frameFields (parse_chunk_navi st gb).1 = frameFields st :=
  congrArg
    (fun t => (t.2.2.1, t.2.2.2.2.2.2.2.2.2.1, t.2.2.2.2.2.2.2.2.2.2.1,
      t.2.2.2.2.2.2.2.2.2.2.2.2.2.1, t.2.2.2.2.2.2.2.2.2.2.2.2.2.2))
    (parse_chunk_navi_core st gb)

theorem pc_frameFields (st : State) (gb : GB) (data : List Nat) :
    frameFields (parse_chunks st gb data).2.1 = frameFields st :=
  congrArg
    (fun t => (t.2.2.2.2.1, t.2.2.2.2.2.2.2.2.2.2.2.1, t.2.2.2.2.2.2.2.2.2.2.2.2.1,
      t.2.2.2.2.2.2.2.2.2.2.2.2.2.2.2.1, t.2.2.2.2.2.2.2.2.2.2.2.2.2.2.2.2))
    (parse_chunks_core st gb data)

theorem sp_syncSaw (st : State) (gb : GB) (data : List Nat) :
    ((parse_stream_params st gb data).2.1.is_sync_frame,
     (parse_stream_params st gb data).2.1.saw_sync) = (st.is_sync_frame, st.saw_sync) :=
  congrArg (fun t => (t.2.2.2.2.2.2.2.2.1, t.2.2.2.2.2.2.2.2.2))
    (parse_stream_params_core st gb data)

theorem fields_clock {a b : State} (h : frameFields a = frameFields b) :
    a.clock_rate = b.clock_rate := congrArg Prod.fst h

theorem fields_sr {a b : State} (h : frameFields a = frameFields b) :
    a.sample_rate = b.sample_rate := congrArg (fun t => t.2.1) h

theorem fields_srm {a b : State} (h : frameFields a = frameFields b) :
    a.sample_rate_mod = b.sample_rate_mod := congrArg (fun t => t.2.2.1) h

theorem fields_sync {a b : State} (h : frameFields a = frameFields b) :
    a.is_sync_frame = b.is_sync_frame := congrArg (fun t => t.2.2.2.1) h

theorem fields_saw {a b : State} (h : frameFields a = frameFields b) :
    a.saw_sync = b.saw_sync := congrArg (fun t => t.2.2.2.2) h

theorem frameFields_set_frame_bytes (x : State) (b : Nat) :
    frameFields {x with frame_bytes := b} = frameFields x := rfl

/-- The navigation and frame-size stages preserve the sampling fields
and flags set by the stream-parameter stage. -/
theorem stage5_fields (st : State) (data : List Nat) :
    frameFields (stage5 st data) = frameFields (stageSp st data).2.1 := by
  rw [show stage5 st data
        = {(stageCn st data).1 with
            frame_bytes := (stageCn st data).1.ftoc_bytes + (stageCn st data).1.chunk_bytes}
      from rfl,
    frameFields_set_frame_bytes,
    show stageCn st data = parse_chunk_navi (stageAp st data).1 (stageAp st data).2 from rfl,
    cn_frameFields,
    show stageAp st data
        = parse_aud_pres_params (stageSp st data).2.1 (stageSp st data).2.2 from rfl,
    ap_frameFields]

/-- The metadata-chunk walk preserves the sampling fields and flags. -/
theorem tailPc_fields (st5 : State) (gbn : GB) (data : List Nat) :
    frameFields (tailPc st5 gbn data).2.1 = frameFields st5 :=
  pc_frameFields st5 (gbn.skip_bits (st5.ftoc_bytes * 8 - gbn.pos)) data

theorem stage2_syncSaw (st : State) (data : List Nat) :
    ((stage2 st data).is_sync_frame, (stage2 st data).saw_sync)
      = ((stage1 st data).is_sync_frame, (stage1 st data).saw_sync) := rfl

/-- The sync flags of the state delivered to the frame tail are those
set at the gate. -/
theorem stage5_syncSaw (st : State) (data : List Nat) :
    ((stage5 st data).is_sync_frame, (stage5 st data).saw_sync)
      = ((stage1 st data).is_sync_frame, (stage1 st data).saw_sync) := by
  have h := fields_sync (stage5_fields st data)
  have h' := fields_saw (stage5_fields st data)
  have h2 := sp_syncSaw (stage2 st data) (stageFv data).2 data
  have h2a : (stageSp st data).2.1.is_sync_frame = (stage1 st data).is_sync_frame :=
    congrArg Prod.fst h2
  have h2b : (stageSp st data).2.1.saw_sync = (stage1 st data).saw_sync :=
    congrArg Prod.snd h2
  simp only [Prod.mk.injEq]
  exact ⟨h.trans h2a, h'.trans h2b⟩

/-! ## C10 and C7 -/

/-- C10: on a state that has already seen a sync frame, a buffer of at
least 4 bytes whose leading 32-bit word matches neither syncword makes
dtsuhd_frame return NOSYNC (not INVALID). -/
theorem c10_unknown_word_nosync (st : State) (data : List Nat) (wf wd : Bool)
    (hs : st.saw_sync = true) (h4 : 4 ≤ data.length)
    (h1 : showBitsAt data 0 32 ≠ SYNCWORD)
    (h2 : showBitsAt data 0 32 ≠ NONSYNCWORD) :
    (dtsuhd_frame st data wf wd).status = .nosync := by
  have hlen : ¬ data.length < 4 := by omega
  have hg : gateFails st data = true := by
    simp [gateFails, stage1, hs, h1, h2]
  simp [dtsuhd_frame, hlen, hg]

/-- Witness for C10: an all-zero word after a sync frame was seen. -/
theorem c10_unknown_word_nosync_witness :
    (dtsuhd_frame {dtsuhd_create with saw_sync := true} [0, 0, 0, 0]
        false false).status = .nosync :=
  c10_unknown_word_nosync _ _ false false rfl (by decide) (by decide) (by decide)

/-- C7: a buffer shorter than 4 bytes yields INCOMPLETE with no frame
emitted; and when the gate passes but the decoded FTOC size is below 5
or not below the buffer length, the result is again INCOMPLETE with no
frame emitted. -/
theorem c7_incomplete_paths (st : State) (data : List Nat) (wf wd : Bool) :
    (data.length < 4 → dtsuhd_frame st data wf wd = ⟨.incomplete, st, none, none, []⟩) ∧
    (4 ≤ data.length → gateFails st data = false →
      ((stage2 st data).ftoc_bytes < 5 ∨ data.length ≤ (stage2 st data).ftoc_bytes) →
      dtsuhd_frame st data wf wd = ⟨.incomplete, stage2 st data, none, none, []⟩) := by
  constructor
  · intro h
    simp [dtsuhd_frame, h]
  · intro h4 hg hf
    have hlen : ¬ data.length < 4 := by omega
    have hb : ftocBad st data = true := by
      rcases hf with h | h <;> simp [ftocBad, h]
    simp [dtsuhd_frame, hlen, hg, hb]

/-- Short buffer for the C7 witness. -/
def c7bufA : List Nat := [0x40, 0x41, 0x1B]

/-- A sync word followed by a zero FTOC VarField: ftoc_bytes = 1 < 5. -/
def c7bufB : List Nat := [0x40, 0x41, 0x1B, 0xF2, 0x00]

/-- Witness for C7: both INCOMPLETE paths at concrete buffers. -/
theorem c7_incomplete_paths_witness :
    dtsuhd_frame dtsuhd_create c7bufA false false
        = ⟨.incomplete, dtsuhd_create, none, none, []⟩ ∧
    dtsuhd_frame dtsuhd_create c7bufB false false
        = ⟨.incomplete, stage2 dtsuhd_create c7bufB, none, none, []⟩ :=
  ⟨(c7_incomplete_paths dtsuhd_create c7bufA false false).1 (by decide),
   (c7_incomplete_paths dtsuhd_create c7bufB false false).2
     (by decide) (by decide) (Or.inl (by decide))⟩

/-! ## C1 -/

set_option maxRecDepth 100000 in
/-- Counterexample to C1 as stated: the first call sees a 4-byte sync
word with no FTOC and returns INCOMPLETE — no sync frame is ever
successfully processed — yet the non-sync frame that follows parses as
OK, because dtsuhd_frame sets saw_sync from the syncword alone, before
any of the frame is validated. -/
theorem c1_counterexample :
    (dtsuhd_frame dtsuhd_create [0x40, 0x41, 0x1B, 0xF2] false false).status
        = .incomplete ∧
    (dtsuhd_frame
        (dtsuhd_frame dtsuhd_create [0x40, 0x41, 0x1B, 0xF2] false false).st
        nonsyncCrc false false).status = .ok :=
  ⟨by decide, by decide⟩

/-- C1 (amended): with saw_sync still false, a buffer of at least 4
bytes headed by the non-sync syncword yields NOSYNC; an OK parse of a
non-sync frame requires saw_sync to have been true on entry; and on
every buffer of at least 4 bytes the call leaves saw_sync equal to its
prior value OR-ed with "the leading word is the sync syncword" — the
flag records a seen sync word, not a successfully processed sync
frame. -/
theorem c1_nonsync_needs_sync (st : State) (data : List Nat) (wf wd : Bool) :
    (st.saw_sync = false → showBitsAt data 0 32 = NONSYNCWORD →
      4 ≤ data.length → (dtsuhd_frame st data wf wd).status = .nosync) ∧
    ((dtsuhd_frame st data wf wd).status = .ok →
      showBitsAt data 0 32 = NONSYNCWORD → st.saw_sync = true) ∧
    (4 ≤ data.length →
      (dtsuhd_frame st data wf wd).st.saw_sync
        = (st.saw_sync || decide (showBitsAt data 0 32 = SYNCWORD))) := by
  refine ⟨?_, ?_, ?_⟩
  · intro hs hw h4
    have hlen : ¬ data.length < 4 := by omega
    have hns : showBitsAt data 0 32 ≠ SYNCWORD := by rw [hw]; decide
    have hg : gateFails st data = true := by
      simp [gateFails, stage1, hs, hns]
    simp [dtsuhd_frame, hlen, hg]
  · intro hok hw
    have hns : showBitsAt data 0 32 ≠ SYNCWORD := by rw [hw]; decide
    rcases frame_cases st data wf wd _ rfl with
      ⟨h, he⟩ | ⟨h, hg, he⟩ | ⟨h, hg, hb, he⟩ | ⟨h, hg, hb, hsp, he⟩ |
      ⟨h, hg, hb, hsp, he⟩
    · rw [he] at hok; simp at hok
    · rw [he] at hok; simp at hok
    · rw [he] at hok; simp at hok
    · rw [he] at hok; simp at hok
    · simp [gateFails, stage1, hns, hw] at hg
      cases hsw : st.saw_sync
      · exact absurd (hg hsw) (by decide)
      · rfl
  · intro h4
    have hlen : ¬ data.length < 4 := by omega
    have hsaw : (stage1 st data).saw_sync
        = (st.saw_sync || decide (showBitsAt data 0 32 = SYNCWORD)) := rfl
    have hs2 := sp_syncSaw (stage2 st data) (stageFv data).2 data
    rw [Prod.mk.injEq] at hs2
    have hs5 := stage5_syncSaw st data
    rw [Prod.mk.injEq] at hs5
    have h5 : (stage5 st data).saw_sync
        = (st.saw_sync || decide (showBitsAt data 0 32 = SYNCWORD)) :=
      hs5.2.trans hsaw
    have hp : (tailPc (stage5 st data) (stageCn st data).2.1 data).2.1.saw_sync
        = (st.saw_sync || decide (showBitsAt data 0 32 = SYNCWORD)) :=
      (fields_saw (tailPc_fields (stage5 st data) (stageCn st data).2.1 data)).trans h5
    rcases frame_cases st data wf wd _ rfl with
      ⟨h, he⟩ | ⟨h, hg, he⟩ | ⟨h, hg, hb, he⟩ | ⟨h, hg, hb, hsp, he⟩ |
      ⟨h, hg, hb, hsp, he⟩
    · exact absurd h hlen
    · rw [he]; exact hsaw
    · rw [he]; exact hsaw
    · rw [he]; exact hs2.2.trans hsaw
    · rw [he]
      rcases frameTail_cases (stage5 st data) (stageCn st data).2.1
          (stageCn st data).2.2 data wf wd _ rfl with
        ⟨h5l, ht⟩ | ⟨h5l, hwd, hpc, ht⟩ | ⟨h5l, hwd, hpc, ht⟩ | ⟨h5l, hwd, ht⟩
      · rw [ht]; exact h5
      · rw [ht]; exact hp
      · rw [ht, frameFinish_st]; exact hp
      · rw [ht, frameFinish_st]; exact h5

set_option maxRecDepth 100000 in
/-- Witness for C1 at concrete frames: a non-sync frame on a fresh
state is NOSYNC; an OK non-sync parse had saw_sync set on entry; and
saw_sync is preserved across a non-sync call. -/
theorem c1_nonsync_needs_sync_witness :
    (dtsuhd_frame dtsuhd_create nonsyncSmall false false).status = .nosync ∧
    ({dtsuhd_create with saw_sync := true} : State).saw_sync = true ∧
    (dtsuhd_frame {dtsuhd_create with saw_sync := true} nonsyncCrc
        false false).st.saw_sync
      = (({dtsuhd_create with saw_sync := true} : State).saw_sync
          || decide (showBitsAt nonsyncCrc 0 32 = SYNCWORD)) :=
  ⟨(c1_nonsync_needs_sync dtsuhd_create nonsyncSmall false false).1
     rfl (by decide) (by decide),
   (c1_nonsync_needs_sync {dtsuhd_create with saw_sync := true} nonsyncCrc
       false false).2.1 (by decide) (by decide),
   (c1_nonsync_needs_sync {dtsuhd_create with saw_sync := true} nonsyncCrc
       false false).2.2 (by decide)⟩

/-! ## C6 -/

/-- The activity-map fold of extract_object_info never writes
coding_name. -/
theorem actFold_coding (o : MDObject) (rows : List ActRow) :
    ∀ i : DescriptorInfo,
      (rows.foldl
        (fun inf row =>
          if row.activity_mask &&& o.ch_activity_mask ≠ 0 then
            {inf with channel_mask := inf.channel_mask ||| row.channel_mask,
                      ffmpeg_channel_mask :=
                        inf.ffmpeg_channel_mask ||| row.ffmpeg_channel_mask}
          else inf)
        i).coding_name = i.coding_name := by
  induction rows with
  | nil => intro i; rfl
  | cons r rs ih =>
      intro i
      rw [List.foldl_cons, ih]
      split <;> rfl

/-- extract_object_info never writes coding_name. -/
theorem extract_object_info_coding (o : Option MDObject) (i : DescriptorInfo) :
    (extract_object_info o i).coding_name = i.coding_name := by
  cases o with
  | none => rfl
  | some o =>
      simp only [extract_object_info]
      exact actFold_coding o activity_map i

/-- C6: an OK call with the descriptor requested on a sync frame yields
the descriptor built by update_descriptor from the final state, whose
fields satisfy the claimed equations. -/
theorem c6_descriptor (st : State) (data : List Nat) (wf : Bool)
    (hok : (dtsuhd_frame st data wf true).status = .ok)
    (hsync : (dtsuhd_frame st data wf true).st.is_sync_frame = true) :
    (dtsuhd_frame st data wf true).di
        = some (update_descriptor (dtsuhd_frame st data wf true).st) ∧
    ∀ s : State,
      (update_descriptor s).valid = true ∧
      (update_descriptor s).sample_size = 16 ∧
      (update_descriptor s).base_sample_freq_code
          = (if s.sample_rate = 48000 then 1 else 0) ∧
      (update_descriptor s).decoder_profile_code = s.major_version - 2 ∧
      (update_descriptor s).max_payload_code
          = (if 2 < s.major_version then 1 else 0) ∧
      (update_descriptor s).num_pres_code = s.num_audio_pres - 1 ∧
      (update_descriptor s).coding_name
          = (if 2 < s.major_version then "dtsy" else "dtsx") := by
  constructor
  · rcases frame_cases st data wf true _ rfl with
      ⟨h, he⟩ | ⟨h, hg, he⟩ | ⟨h, hg, hb, he⟩ | ⟨h, hg, hb, hsp, he⟩ |
      ⟨h, hg, hb, hsp, he⟩
    · rw [he] at hok; simp at hok
    · rw [he] at hok; simp at hok
    · rw [he] at hok; simp at hok
    · rw [he] at hok; simp at hok
    · rcases frameTail_cases (stage5 st data) (stageCn st data).2.1
          (stageCn st data).2.2 data wf true _ rfl with
        ⟨h5l, ht⟩ | ⟨h5l, hwd, hpc, ht⟩ | ⟨h5l, hwd, hpc, ht⟩ | ⟨h5l, hwd, ht⟩
      · rw [he, ht] at hok; simp at hok
      · rw [he, ht] at hok; simp at hok
      · rw [he, ht, frameFinish_di, frameFinish_st]
      · rw [he, ht, frameFinish_st] at hsync
        simp [Bool.true_and] at hwd
        exact absurd hsync (by simp [hwd])
  · intro s
    refine ⟨rfl, rfl, rfl, rfl, rfl, rfl, ?_⟩
    show (update_descriptor s).coding_name = _
    simp only [update_descriptor]
    rw [extract_object_info_coding]

set_option maxRecDepth 100000 in
/-- Witness for C6 at the concrete sync frame. -/
theorem c6_descriptor_witness :
    (dtsuhd_frame dtsuhd_create syncFrameW false true).di
        = some (update_descriptor (dtsuhd_frame dtsuhd_create syncFrameW
            false true).st) ∧
    ∀ s : State,
      (update_descriptor s).valid = true ∧
      (update_descriptor s).sample_size = 16 ∧
      (update_descriptor s).base_sample_freq_code
          = (if s.sample_rate = 48000 then 1 else 0) ∧
      (update_descriptor s).decoder_profile_code = s.major_version - 2 ∧
      (update_descriptor s).max_payload_code
          = (if 2 < s.major_version then 1 else 0) ∧
      (update_descriptor s).num_pres_code = s.num_audio_pres - 1 ∧
      (update_descriptor s).coding_name
          = (if 2 < s.major_version then "dtsy" else "dtsx") :=
  c6_descriptor dtsuhd_create syncFrameW false (by decide) (by decide)

/-! ## C3 -/

/-- The claimed sampling equation on a state. -/
def srEq (a : State) : Prop :=
  a.sample_rate = a.clock_rate * 2 ^ a.sample_rate_mod

theorem srEq_transport {a b : State} (h : frameFields a = frameFields b)
    (hb : srEq b) : srEq a := by
  unfold srEq at hb ⊢
  rw [fields_sr h, fields_clock h, fields_srm h]
  exact hb

set_option maxHeartbeats 1000000 in
/-- A successful parse_stream_params on a sync frame establishes the
sampling equation. -/
theorem sp_srEq (st : State) (gb : GB) (data : List Nat)
    (hf : (parse_stream_params st gb data).1 = false)
    (hs : st.is_sync_frame = true) :
    srEq (parse_stream_params st gb data).2.1 := by
  revert hf
  simp [parse_stream_params, hs]
  split_ifs <;> intro hf <;> first | rfl | simp at hf

/-- The OK-path part of C3, stated against the state delivered by the
stream-parameter stage. -/
theorem c3aux (st : State) (data : List Nat) (rst : State)
    (hsp : (stageSp st data).1 = false)
    (hff : frameFields rst = frameFields (stageSp st data).2.1) :
    (rst.is_sync_frame = true → srEq rst) ∧
    (rst.is_sync_frame = false →
      rst.clock_rate = st.clock_rate ∧ rst.sample_rate = st.sample_rate ∧
      rst.sample_rate_mod = st.sample_rate_mod) := by
  have hsp' : (parse_stream_params (stage2 st data) (stageFv data).2 data).1
      = false := hsp
  have hsync := sp_syncSaw (stage2 st data) (stageFv data).2 data
  rw [Prod.mk.injEq] at hsync
  constructor
  · intro h1
    have hs2 : (stage2 st data).is_sync_frame = true :=
      (hsync.1.symm.trans ((fields_sync hff).symm.trans h1))
    exact srEq_transport hff (sp_srEq (stage2 st data) (stageFv data).2 data hsp' hs2)
  · intro h0
    have hs2 : (stage2 st data).is_sync_frame = false :=
      (hsync.1.symm.trans ((fields_sync hff).symm.trans h0))
    have hnp : (stageSp st data).2.1 = stage2 st data :=
      parse_stream_params_nonsync (stage2 st data) (stageFv data).2 data hs2
    exact ⟨(fields_clock hff).trans ((congrArg State.clock_rate hnp).trans rfl),
           (fields_sr hff).trans ((congrArg State.sample_rate hnp).trans rfl),
           (fields_srm hff).trans ((congrArg State.sample_rate_mod hnp).trans rfl)⟩

set_option maxRecDepth 100000 in
/-- Counterexample to C3 as stated: a failing sync parse leaves
clock_rate written but sample_rate untouched; the following non-sync
frame parses OK on that state, so an OK call can return with
sample_rate ≠ clock_rate << sample_rate_mod. -/
theorem c3_counterexample :
    (dtsuhd_frame dtsuhd_create failDurFrame false false).status
        = .invalid_frame ∧
    (dtsuhd_frame (dtsuhd_frame dtsuhd_create failDurFrame false false).st
        nonsyncSmall false false).status = .ok ∧
    (dtsuhd_frame (dtsuhd_frame dtsuhd_create failDurFrame false false).st
        nonsyncSmall false false).st.sample_rate
      ≠ (dtsuhd_frame (dtsuhd_frame dtsuhd_create failDurFrame false false).st
          nonsyncSmall false false).st.clock_rate
        * 2 ^ (dtsuhd_frame
            (dtsuhd_frame dtsuhd_create failDurFrame false false).st
            nonsyncSmall false false).st.sample_rate_mod :=
  ⟨by decide, by decide, by decide⟩

/-- C3 (amended): the sampling equation holds in the freshly created
state; an OK call on a sync frame (re-)establishes it; and an OK call
on a non-sync frame leaves all three sampling fields unchanged — so the
equation is an invariant of OK calls, but a failed sync parse may break
it for the state carried into later calls. -/
theorem c3_sample_rate_equation (st : State) (data : List Nat) (wf wd : Bool) :
    srEq dtsuhd_create ∧
    ((dtsuhd_frame st data wf wd).status = .ok →
      ((dtsuhd_frame st data wf wd).st.is_sync_frame = true →
        srEq (dtsuhd_frame st data wf wd).st) ∧
      ((dtsuhd_frame st data wf wd).st.is_sync_frame = false →
        (dtsuhd_frame st data wf wd).st.clock_rate = st.clock_rate ∧
        (dtsuhd_frame st data wf wd).st.sample_rate = st.sample_rate ∧
        (dtsuhd_frame st data wf wd).st.sample_rate_mod = st.sample_rate_mod)) := by
  constructor
  · rfl
  · intro hok
    rcases frame_cases st data wf wd _ rfl with
      ⟨h, he⟩ | ⟨h, hg, he⟩ | ⟨h, hg, hb, he⟩ | ⟨h, hg, hb, hsp, he⟩ |
      ⟨h, hg, hb, hsp, he⟩
    · rw [he] at hok; simp at hok
    · rw [he] at hok; simp at hok
    · rw [he] at hok; simp at hok
    · rw [he] at hok; simp at hok
    · rcases frameTail_cases (stage5 st data) (stageCn st data).2.1
          (stageCn st data).2.2 data wf wd _ rfl with
        ⟨h5l, ht⟩ | ⟨h5l, hwd, hpc, ht⟩ | ⟨h5l, hwd, hpc, ht⟩ | ⟨h5l, hwd, ht⟩
      · rw [he, ht] at hok; simp at hok
      · rw [he, ht] at hok; simp at hok
      · have hre : (dtsuhd_frame st data wf wd).st
            = (tailPc (stage5 st data) (stageCn st data).2.1 data).2.1 := by
          rw [he, ht, frameFinish_st]
        rw [hre]
        exact c3aux st data _ hsp
          ((tailPc_fields (stage5 st data) (stageCn st data).2.1 data).trans
            (stage5_fields st data))
      · have hre : (dtsuhd_frame st data wf wd).st = stage5 st data := by
          rw [he, ht, frameFinish_st]
        rw [hre]
        exact c3aux st data _ hsp (stage5_fields st data)

set_option maxRecDepth 100000 in
/-- Witness for C3: the fresh state and an OK sync parse at a concrete
frame. -/
theorem c3_sample_rate_equation_witness :
    srEq dtsuhd_create ∧
    srEq (dtsuhd_frame dtsuhd_create syncFrameW false false).st :=
  ⟨(c3_sample_rate_equation dtsuhd_create syncFrameW false false).1,
   ((c3_sample_rate_equation dtsuhd_create syncFrameW false false).2
       (by decide)).1 (by decide)⟩

/-! ## C5 -/

/-- Every base frame duration in Table 6-12 is divisible by 4. -/
theorem base_duration_div4 (i : Nat) : 4 ∣ (table_base_duration[i]?).getD 0 := by
  rcases i with _ | _ | _ | _ | n
  · decide
  · decide
  · decide
  · decide
  · simp [table_base_duration]

set_option maxHeartbeats 1000000 in
/-- A successful parse_stream_params on a sync frame writes a frame
duration divisible by 4 (base durations 512/480/384 times a positive
multiplier). -/
theorem sp_dur4 (st : State) (gb : GB) (data : List Nat)
    (hf : (parse_stream_params st gb data).1 = false)
    (hs : st.is_sync_frame = true) :
    4 ∣ (parse_stream_params st gb data).2.1.frame_duration := by
  revert hf
  simp [parse_stream_params, hs]
  split_ifs <;> intro hf
  all_goals
    first
    | exact hf.elim
    | (dsimp only; exact (base_duration_div4 _).mul_right _)

theorem dur_set_frame_bytes (x : State) (b : Nat) :
    ({x with frame_bytes := b} : State).frame_duration = x.frame_duration := rfl

theorem ap_dur (st : State) (gb : GB) :
    (parse_aud_pres_params st gb).1.frame_duration = st.frame_duration :=
  congrArg (fun t => t.2.2.2.2.2.2.1) (parse_aud_pres_params_core st gb)

theorem cn_dur (st : State) (gb : GB) :
    (parse_chunk_navi st gb).1.frame_duration = st.frame_duration :=
  congrArg (fun t => t.2.2.2.2.1) (parse_chunk_navi_core st gb)

theorem pc_dur (st : State) (gb : GB) (data : List Nat) :
    (parse_chunks st gb data).2.1.frame_duration = st.frame_duration :=
  congrArg (fun t => t.2.2.2.2.2.2.1) (parse_chunks_core st gb data)

/-- The frame duration delivered to the frame tail is the one set by
the stream-parameter stage. -/
theorem stage5_dur (st : State) (data : List Nat) :
    (stage5 st data).frame_duration = (stageSp st data).2.1.frame_duration := by
  rw [show stage5 st data
        = {(stageCn st data).1 with
            frame_bytes := (stageCn st data).1.ftoc_bytes + (stageCn st data).1.chunk_bytes}
      from rfl,
    dur_set_frame_bytes,
    show stageCn st data = parse_chunk_navi (stageAp st data).1 (stageAp st data).2 from rfl,
    cn_dur,
    show stageAp st data
        = parse_aud_pres_params (stageSp st data).2.1 (stageSp st data).2.2 from rfl,
    ap_dur]

theorem tailPc_dur (st5 : State) (gbn : GB) (data : List Nat) :
    (tailPc st5 gbn data).2.1.frame_duration = st5.frame_duration :=
  pc_dur st5 (gbn.skip_bits (st5.ftoc_bytes * 8 - gbn.pos)) data

/-- The duration-fraction is always 1, 2 or 4. -/
theorem fractionAux (l : List NAVI) :
    ∀ f : Nat, f = 1 ∨ f = 2 ∨ f = 4 →
      (l.foldl
        (fun f s => if s.present then
            (if s.id = 3 then 2 else if s.id = 4 then 4 else f)
          else f) f = 1 ∨
       l.foldl
        (fun f s => if s.present then
            (if s.id = 3 then 2 else if s.id = 4 then 4 else f)
          else f) f = 2 ∨
       l.foldl
        (fun f s => if s.present then
            (if s.id = 3 then 2 else if s.id = 4 then 4 else f)
          else f) f = 4) := by
  induction l with
  | nil => intro f hf; exact hf
  | cons s l ih =>
      intro f hf
      rw [List.foldl_cons]
      apply ih
      split_ifs <;>
        first
        | exact Or.inr (Or.inl rfl)
        | exact Or.inr (Or.inr rfl)
        | exact hf

theorem fractionOf_mem (navi : List NAVI) :
    fractionOf navi = 1 ∨ fractionOf navi = 2 ∨ fractionOf navi = 4 :=
  fractionAux navi 1 (Or.inl rfl)

/-- The exactness of the sample-count division, from the two state
invariants. -/
theorem div_exact (dur sr clock srm fr : Nat) (hsr : sr = clock * 2 ^ srm)
    (hdur : 4 ∣ dur) (hfr : fr = 1 ∨ fr = 2 ∨ fr = 4) :
    dur * sr / (clock * fr) * clock * fr = dur * sr := by
  have h2 : fr ∣ dur * 2 ^ srm := by
    rcases hfr with h | h | h <;> subst h
    · exact one_dvd _
    · exact dvd_mul_of_dvd_left (dvd_trans ⟨2, rfl⟩ hdur) _
    · exact dvd_mul_of_dvd_left hdur _
  have hdvd : clock * fr ∣ dur * sr := by
    subst hsr
    obtain ⟨k, hk⟩ := h2
    refine ⟨k, ?_⟩
    rw [show dur * (clock * 2 ^ srm) = clock * (dur * 2 ^ srm) from by ring, hk]
    ring
  rw [mul_assoc]
  exact Nat.div_mul_cancel hdvd

/-- The two invariants carried across an OK call, stated against the
state delivered by the stream-parameter stage. -/
theorem c5aux (st : State) (data : List Nat) (rst : State)
    (hsp : (stageSp st data).1 = false)
    (hff : frameFields rst = frameFields (stageSp st data).2.1)
    (hdr : rst.frame_duration = (stageSp st data).2.1.frame_duration)
    (hsr : srEq st) (hdur : 4 ∣ st.frame_duration) :
    srEq rst ∧ 4 ∣ rst.frame_duration := by
  have hsp' : (parse_stream_params (stage2 st data) (stageFv data).2 data).1
      = false := hsp
  cases hs2 : (stage2 st data).is_sync_frame with
  | true =>
      constructor
      · exact srEq_transport hff
          (sp_srEq (stage2 st data) (stageFv data).2 data hsp' hs2)
      · rw [hdr]
        exact sp_dur4 (stage2 st data) (stageFv data).2 data hsp' hs2
  | false =>
      have hnp : (stageSp st data).2.1 = stage2 st data :=
        parse_stream_params_nonsync (stage2 st data) (stageFv data).2 data hs2
      constructor
      · apply srEq_transport hff
        rw [hnp]
        exact hsr
      · rw [hdr, hnp]
        exact hdur

/-- First call of the C5 counterexample trace: an OK sync frame. -/
def c5r1 : FrameResult := dtsuhd_frame dtsuhd_create syncFrameW true false

/-- Second call: a sync frame whose clock-rate code selects the reserved
entry 0, failing parse_stream_params after frame_duration was written. -/
def c5r2 : FrameResult := dtsuhd_frame c5r1.st failClockFrame true false

/-- Third call: a non-sync frame, which parses OK on the damaged state. -/
def c5r3 : FrameResult := dtsuhd_frame c5r2.st nonsyncSmall true false

set_option maxRecDepth 100000 in
/-- Counterexample to C5 as stated: after a failed sync parse wrote
clock_rate = 0 with frame_duration = 512, a non-sync frame returns OK
and fills a FrameInfo whose sample_count came from a division by zero
(0 in this model, undefined behaviour in C), so
sample_count * clock_rate * fraction = 0 ≠ frame_duration * sample_rate. -/
theorem c5_counterexample :
    c5r1.status = .ok ∧ c5r2.status = .invalid_frame ∧ c5r3.status = .ok ∧
    c5r3.fi = some ⟨7, 0, 48000, false⟩ ∧
    (⟨7, 0, 48000, false⟩ : FrameInfo).sample_count * c5r3.st.clock_rate
        * fractionOf c5r3.st.navi
      ≠ c5r3.st.frame_duration * c5r3.st.sample_rate :=
  ⟨by decide, by decide, by decide, by decide, by decide⟩

/-- C5 (amended): when the entry state satisfies the two stream
invariants — sample_rate = clock_rate << sample_rate_mod and
4 ∣ frame_duration, both true of the fresh state and re-established by
every OK call — a call that fills a FrameInfo satisfies the exact
integer equality sample_count * clock_rate * fraction =
frame_duration * sample_rate on the returned state. -/
theorem c5_sample_count_exact (st : State) (data : List Nat) (wf wd : Bool)
    (f : FrameInfo) (hsr : srEq st) (hdur : 4 ∣ st.frame_duration)
    (hfi : (dtsuhd_frame st data wf wd).fi = some f) :
    f.sample_count * (dtsuhd_frame st data wf wd).st.clock_rate
        * fractionOf (dtsuhd_frame st data wf wd).st.navi
      = (dtsuhd_frame st data wf wd).st.frame_duration
        * (dtsuhd_frame st data wf wd).st.sample_rate := by
  rcases frame_cases st data wf wd _ rfl with
    ⟨h, he⟩ | ⟨h, hg, he⟩ | ⟨h, hg, hb, he⟩ | ⟨h, hg, hb, hsp, he⟩ |
    ⟨h, hg, hb, hsp, he⟩
  · rw [he] at hfi; simp at hfi
  · rw [he] at hfi; simp at hfi
  · rw [he] at hfi; simp at hfi
  · rw [he] at hfi; simp at hfi
  · rcases frameTail_cases (stage5 st data) (stageCn st data).2.1
        (stageCn st data).2.2 data wf wd _ rfl with
      ⟨h5l, ht⟩ | ⟨h5l, hwd, hpc, ht⟩ | ⟨h5l, hwd, hpc, ht⟩ | ⟨h5l, hwd, ht⟩
    · rw [he, ht] at hfi; simp at hfi
    · rw [he, ht] at hfi; simp at hfi
    · have hinv := c5aux st data
        (tailPc (stage5 st data) (stageCn st data).2.1 data).2.1 hsp
        ((tailPc_fields (stage5 st data) (stageCn st data).2.1 data).trans
          (stage5_fields st data))
        ((tailPc_dur (stage5 st data) (stageCn st data).2.1 data).trans
          (stage5_dur st data))
        hsr hdur
      rw [he, ht, frameFinish_st]
      rw [he, ht, frameFinish_fi] at hfi
      cases hwf : wf with
      | false => rw [hwf] at hfi; simp at hfi
      | true =>
          rw [hwf] at hfi
          simp only [if_true] at hfi
          rw [Option.some.injEq] at hfi
          rw [← hfi]
          exact div_exact _ _ _ _ _ hinv.1 hinv.2
            (fractionOf_mem (tailPc (stage5 st data) (stageCn st data).2.1
              data).2.1.navi)
    · have hinv := c5aux st data (stage5 st data) hsp
        (stage5_fields st data) (stage5_dur st data) hsr hdur
      rw [he, ht, frameFinish_st]
      rw [he, ht, frameFinish_fi] at hfi
      cases hwf : wf with
      | false => rw [hwf] at hfi; simp at hfi
      | true =>
          rw [hwf] at hfi
          simp only [if_true] at hfi
          rw [Option.some.injEq] at hfi
          rw [← hfi]
          exact div_exact _ _ _ _ _ hinv.1 hinv.2
            (fractionOf_mem (stage5 st data).navi)

set_option maxRecDepth 100000 in
/-- Witness for C5: the fresh state satisfies both invariants and an OK
sync parse at a concrete frame gives 512 * 48000 exactly. -/
theorem c5_sample_count_exact_witness :
    srEq dtsuhd_create ∧ 4 ∣ dtsuhd_create.frame_duration ∧
    (dtsuhd_frame dtsuhd_create syncFrameW true false).fi
        = some ⟨16, 512, 48000, true⟩ ∧
    (⟨16, 512, 48000, true⟩ : FrameInfo).sample_count
        * (dtsuhd_frame dtsuhd_create syncFrameW true false).st.clock_rate
        * fractionOf (dtsuhd_frame dtsuhd_create syncFrameW true false).st.navi
      = (dtsuhd_frame dtsuhd_create syncFrameW true false).st.frame_duration
        * (dtsuhd_frame dtsuhd_create syncFrameW true false).st.sample_rate :=
  ⟨rfl, by decide, by decide,
   c5_sample_count_exact dtsuhd_create syncFrameW true false _
     rfl (by decide) (by decide)⟩

/-! ## C2 -/

/-- Sum of the FTOC chunk descriptor sizes. -/
def chunkSum (l : List UHDChunk) : Nat := (l.map (fun c => c.bytes)).sum

/-- Sum of the sizes of the present navigation entries. -/
def naviSum (l : List NAVI) : Nat :=
  ((l.filter (fun e => e.present)).map (fun e => e.bytes)).sum

theorem chunkSum_append (l : List UHDChunk) (c : UHDChunk) :
    chunkSum (l ++ [c]) = chunkSum l + c.bytes := by
  simp [chunkSum]

/-- One FTOC chunk descriptor step of parse_chunk_navi. -/
def chunkBody (s : State) (g : GB) : State × GB :=
  let b := get_bits_var g table_chunk_sizes true
  let cf := if s.full_channel_mix_flag then (false, b.2) else b.2.get_bits1
  ({s with chunk := s.chunk ++ [⟨cf.1, b.1⟩],
           chunk_bytes := s.chunk_bytes + b.1}, cf.2)

theorem chunkLoop_succ (k : Nat) (s : State) (g : GB) :
    chunkLoop (k + 1) (s, g) = chunkLoop k (chunkBody s g) := rfl

theorem chunkBody_sum (s : State) (g : GB) :
    (chunkBody s g).1.chunk_bytes + chunkSum s.chunk
      = chunkSum (chunkBody s g).1.chunk + s.chunk_bytes := by
  simp only [chunkBody]
  rw [chunkSum_append]
  dsimp only
  omega

/-- The FTOC chunk loop accumulates chunk_bytes exactly as the sizes it
appends to the chunk list. -/
theorem chunkLoop_sum (n : Nat) :
    ∀ acc : State × GB,
      (chunkLoop n acc).1.chunk_bytes + chunkSum acc.1.chunk
        = chunkSum (chunkLoop n acc).1.chunk + acc.1.chunk_bytes := by
  induction n with
  | zero => intro acc; exact Nat.add_comm _ _
  | succ k ih =>
      intro acc
      obtain ⟨s, g⟩ := acc
      dsimp only
      rw [chunkLoop_succ]
      have h := ih (chunkBody s g)
      have hb := chunkBody_sum s g
      omega

/-- The audio-chunk index read at the head of each audio loop step. -/
def audioStep (s : State) (g : GB) : Nat × GB :=
  if s.full_channel_mix_flag then ((0 : Nat), g) else get_bits_var g table2468 true

theorem audioChunkLoop_succ (r : Nat) (s : State) (g : GB)
    (L : List (Nat × Nat)) :
    audioChunkLoop (r + 1) (s, g, L)
      = audioChunkLoop r
          ((audioChunkBody s (audioStep s g).1 (audioStep s g).2).1,
           (audioChunkBody s (audioStep s g).1 (audioStep s g).2).2.1,
           L ++ [((audioStep s g).1,
                  (audioChunkBody s (audioStep s g).1 (audioStep s g).2).2.2)]) := rfl

/-- The audio loop only ever appends to the ghost log. -/
theorem audioChunkLoop_log_prefix (r : Nat) :
    ∀ (s : State) (g : GB) (L : List (Nat × Nat)),
      ∃ t, (audioChunkLoop r (s, g, L)).2.2 = L ++ t := by
  induction r with
  | zero => intro s g L; exact ⟨[], (List.append_nil L).symm⟩
  | succ k ih =>
      intro s g L
      rw [audioChunkLoop_succ]
      obtain ⟨t, ht⟩ := ih
        (audioChunkBody s (audioStep s g).1 (audioStep s g).2).1
        (audioChunkBody s (audioStep s g).1 (audioStep s g).2).2.1
        (L ++ [((audioStep s g).1,
            (audioChunkBody s (audioStep s g).1 (audioStep s g).2).2.2)])
      exact ⟨_, ht.trans (List.append_assoc _ _ _)⟩

/-- One audio-chunk step on a sync frame at a fresh index with an
all-present table: the new entry is appended at the end with the size
that was read, and chunk_bytes grows by that size. -/
theorem audioChunkBody_fresh (s : State) (ix : Nat) (g : GB)
    (hsync : s.is_sync_frame = true)
    (hnone : s.navi.findIdx? (fun e => e.index = ix) = none)
    (hpres : s.navi.findIdx? (fun e => !e.present && e.bytes = 0) = none) :
    (audioChunkBody s ix g).1.navi
        = s.navi ++ [⟨(audioChunkBody s ix g).2.2,
            (get_bits_var g table2468 true).1, ix, true⟩] ∧
    (audioChunkBody s ix g).1.chunk_bytes
        = s.chunk_bytes + (audioChunkBody s ix g).2.2 ∧
    (audioChunkBody s ix g).1.chunk = s.chunk ∧
    (audioChunkBody s ix g).1.is_sync_frame = true ∧
    (audioChunkBody s ix g).1.full_channel_mix_flag = s.full_channel_mix_flag := by
  simp [audioChunkBody, navi_find_index, hnone, hpres, hsync, List.getD,
    List.getElem?_concat_length]

/-- Invariant of the audio-chunk loop on a sync frame: as long as the
indices in the final log are distinct, the navigation table is exactly
the logged (index, bytes) pairs, every entry is present, chunk_bytes
grows by the logged sizes, and the chunk list is untouched. -/
theorem audioChunkLoop_inv (r : Nat) :
    ∀ (s : State) (g : GB) (L : List (Nat × Nat)),
      s.is_sync_frame = true →
      (∀ e ∈ s.navi, e.present = true) →
      s.navi.map (fun e => (e.index, e.bytes)) = L →
      ((audioChunkLoop r (s, g, L)).2.2.map Prod.fst).Nodup →
      (∀ e ∈ (audioChunkLoop r (s, g, L)).1.navi, e.present = true) ∧
      (audioChunkLoop r (s, g, L)).1.navi.map (fun e => (e.index, e.bytes))
          = (audioChunkLoop r (s, g, L)).2.2 ∧
      (audioChunkLoop r (s, g, L)).1.chunk_bytes
          = s.chunk_bytes
            + (((audioChunkLoop r (s, g, L)).2.2.drop L.length).map Prod.snd).sum ∧
      (audioChunkLoop r (s, g, L)).1.chunk = s.chunk := by
  induction r with
  | zero =>
      intro s g L hsync hpres hmap hnd
      refine ⟨hpres, hmap, ?_, rfl⟩
      show s.chunk_bytes = s.chunk_bytes + ((L.drop L.length).map Prod.snd).sum
      simp [List.drop_length]
  | succ k ih =>
      intro s g L hsync hpres hmap
      rw [audioChunkLoop_succ]
      intro hnd
      obtain ⟨t, ht⟩ := audioChunkLoop_log_prefix k
        (audioChunkBody s (audioStep s g).1 (audioStep s g).2).1
        (audioChunkBody s (audioStep s g).1 (audioStep s g).2).2.1
        (L ++ [((audioStep s g).1,
            (audioChunkBody s (audioStep s g).1 (audioStep s g).2).2.2)])
      have hnd' := hnd
      rw [ht] at hnd'
      simp only [List.append_assoc, List.singleton_append, List.map_append,
        List.map_cons] at hnd'
      have hnix : (audioStep s g).1 ∉ L.map Prod.fst := by
        intro hmem
        exact (List.disjoint_of_nodup_append hnd') hmem (List.mem_cons_self _ _)
      have hnone : s.navi.findIdx? (fun e => e.index = (audioStep s g).1) = none := by
        rw [List.findIdx?_eq_none_iff]
        intro e he
        have h1 : (e.index, e.bytes) ∈ L := by
          rw [← hmap]; exact List.mem_map_of_mem _ he
        have h2 : e.index ∈ L.map Prod.fst := by
          have h3 := List.mem_map_of_mem Prod.fst h1
          simpa using h3
        exact decide_eq_false (fun hq => hnix (hq ▸ h2))
      have hpn : s.navi.findIdx? (fun e => !e.present && e.bytes = 0) = none := by
        rw [List.findIdx?_eq_none_iff]
        intro e he
        simp [hpres e he]
      obtain ⟨hnavi, hcb, hch, hsy, _⟩ :=
        audioChunkBody_fresh s (audioStep s g).1 (audioStep s g).2 hsync hnone hpn
      have hpres1 : ∀ e ∈ (audioChunkBody s (audioStep s g).1
          (audioStep s g).2).1.navi, e.present = true := by
        rw [hnavi]
        intro e he
        rcases List.mem_append.mp he with h | h
        · exact hpres e h
        · rw [List.mem_singleton.mp h]
      have hmap1 : (audioChunkBody s (audioStep s g).1 (audioStep s g).2).1.navi.map
            (fun e => (e.index, e.bytes))
          = L ++ [((audioStep s g).1,
              (audioChunkBody s (audioStep s g).1 (audioStep s g).2).2.2)] := by
        rw [hnavi]
        simp [hmap]
      have ihr := ih (audioChunkBody s (audioStep s g).1 (audioStep s g).2).1
        (audioChunkBody s (audioStep s g).1 (audioStep s g).2).2.1
        (L ++ [((audioStep s g).1,
            (audioChunkBody s (audioStep s g).1 (audioStep s g).2).2.2)])
        hsy hpres1 hmap1 hnd
      refine ⟨ihr.1, ihr.2.1, ?_, ihr.2.2.2.trans hch⟩
      have hcb2 := ihr.2.2.1
      rw [ht, List.drop_left] at hcb2
      rw [ht, List.append_assoc, List.singleton_append, List.drop_left]
      simp only [List.map_cons, List.sum_cons]
      omega

/-- The count/cursor of the FTOC chunk descriptor read. -/
def cnCc (st : State) (gb : GB) : Nat × GB :=
  if st.full_channel_mix_flag then ((if st.is_sync_frame then 1 else 0), gb)
  else get_bits_var gb table2468 true

/-- The FTOC chunk descriptor walk of parse_chunk_navi. -/
def cnCl (st : State) (gb : GB) : State × GB :=
  chunkLoop (cnCc st gb).1 ({st with chunk := [], chunk_bytes := 0}, (cnCc st gb).2)

/-- The audio-chunk count read of parse_chunk_navi. -/
def cnAc (st : State) (gb : GB) : Nat × GB :=
  if !(cnCl st gb).1.full_channel_mix_flag then
    get_bits_var (cnCl st gb).2 table2468 true
  else (1, (cnCl st gb).2)

/-- The navigation-table reset between the two walks. -/
def cnStc (st : State) (gb : GB) : State :=
  if (cnCl st gb).1.is_sync_frame then navi_clear (cnCl st gb).1
  else navi_clear_present (cnCl st gb).1

/-- The audio-chunk walk of parse_chunk_navi. -/
def cnLp (st : State) (gb : GB) : State × GB × List (Nat × Nat) :=
  audioChunkLoop (cnAc st gb).1 (cnStc st gb, (cnAc st gb).2, [])

/-- parse_chunk_navi as the composition of its two walks. -/
theorem parse_chunk_navi_eq (st : State) (gb : GB) :
    parse_chunk_navi st gb
      = (navi_purge (cnLp st gb).1, (cnLp st gb).2.1, (cnLp st gb).2.2) := rfl

theorem navi_purge_cb (s : State) :
    (navi_purge s).chunk_bytes = s.chunk_bytes := rfl

theorem navi_purge_chunk (s : State) : (navi_purge s).chunk = s.chunk := rfl

theorem navi_purge_allpresent (s : State)
    (h : ∀ e ∈ s.navi, e.present = true) : (navi_purge s).navi = s.navi := by
  simp only [navi_purge]
  exact (List.map_congr_left (fun e he => by simp [h e he])).trans
    (List.map_id s.navi)

/-- On an all-present table matching the log, naviSum is the sum of the
logged sizes. -/
theorem naviSum_eq_log (N : List NAVI) (L : List (Nat × Nat))
    (hp : ∀ e ∈ N, e.present = true)
    (hm : N.map (fun e => (e.index, e.bytes)) = L) :
    naviSum N = (L.map Prod.snd).sum := by
  unfold naviSum
  rw [List.filter_eq_self.mpr (fun a ha => by simp [hp a ha]), ← hm,
    List.map_map]
  rfl

/-- parse_chunk_navi on a sync frame with distinct logged indices: the
accumulated chunk_bytes is exactly the chunk-list sum plus the
present-navigation sum. -/
theorem parse_chunk_navi_sync (st : State) (gb : GB)
    (hsync : st.is_sync_frame = true)
    (hnd : ((parse_chunk_navi st gb).2.2.map Prod.fst).Nodup) :
    (parse_chunk_navi st gb).1.chunk_bytes
        = chunkSum (parse_chunk_navi st gb).1.chunk
          + naviSum (parse_chunk_navi st gb).1.navi := by
  have hclsync : (cnCl st gb).1.is_sync_frame = true := by
    have h := congrArg (fun t => t.2.2.2.2.2.2.2.2.2.2.2.2.2.1)
      (chunkLoop_core (cnCc st gb).1
        {st with chunk := [], chunk_bytes := 0} (cnCc st gb).2)
    exact (show (cnCl st gb).1.is_sync_frame = st.is_sync_frame from h).trans hsync
  have hstc : cnStc st gb = navi_clear (cnCl st gb).1 := by
    simp [cnStc, hclsync]
  have hclsum : (cnCl st gb).1.chunk_bytes = chunkSum (cnCl st gb).1.chunk := by
    have h := chunkLoop_sum (cnCc st gb).1
      ({st with chunk := [], chunk_bytes := 0}, (cnCc st gb).2)
    simpa [chunkSum] using h
  have hndl : ((cnLp st gb).2.2.map Prod.fst).Nodup := by
    have h := hnd
    rw [parse_chunk_navi_eq] at h
    exact h
  have hinv := audioChunkLoop_inv (cnAc st gb).1 (cnStc st gb) (cnAc st gb).2 []
    (by rw [hstc]; exact hclsync)
    (by rw [hstc]; intro e he; simp [navi_clear] at he)
    (by rw [hstc]; simp [navi_clear])
    hndl
  obtain ⟨hp, hm, hcb, hch⟩ := hinv
  have hp' : ∀ e ∈ (cnLp st gb).1.navi, e.present = true := hp
  have hm' : (cnLp st gb).1.navi.map (fun e => (e.index, e.bytes))
      = (cnLp st gb).2.2 := hm
  have hcb' : (cnLp st gb).1.chunk_bytes
      = (cnStc st gb).chunk_bytes
        + (((cnLp st gb).2.2.drop 0).map Prod.snd).sum := hcb
  have hch' : (cnLp st gb).1.chunk = (cnStc st gb).chunk := hch
  rw [List.drop_zero] at hcb'
  rw [parse_chunk_navi_eq]
  show (navi_purge (cnLp st gb).1).chunk_bytes
      = chunkSum (navi_purge (cnLp st gb).1).chunk
        + naviSum (navi_purge (cnLp st gb).1).navi
  rw [navi_purge_cb, navi_purge_chunk, navi_purge_allpresent _ hp']
  rw [naviSum_eq_log _ _ hp' hm']
  have hstccb : (cnStc st gb).chunk_bytes = chunkSum (cnCl st gb).1.chunk := by
    rw [hstc]
    exact hclsum
  have hstcch : (cnLp st gb).1.chunk = (cnCl st gb).1.chunk := by
    rw [hch', hstc]
    rfl
  rw [hcb', hstccb, hstcch]

end DTSUHD
